import Mathlib

/-!
# k8s client-go demo (`main.go`): a shallow embedding

The program is a sequence of calls into collaborators that live outside the
repository (the Kubernetes client, `flag`, `fmt`, `ioutil`, `encoding/json`,
`bufio`), with branches on what they return.  The embedding keeps the program
and leaves the collaborators free:

* a program is a value of `Prog`: it returns, panics, exits, or issues a
  request `Req` and continues with whatever answer (`Resp`) it gets;
* `run` executes a program against an arbitrary handler by explicit state
  passing and records the trace of requests and answers;
* the theorems quantify over every handler and every initial state;
* the two goroutines of `startWatch` share nothing with the rest: each is a
  loop over what its watcher delivers, observed for a bounded number of
  iterations.

What the libraries do is kept to what the program depends on: the kind of an
error (`errors.IsNotFound`, `errors.IsConflict`, the type assertion to
`*errors.StatusError`), the loop of `retry.RetryOnConflict` without its sleeps,
and `filepath.Join` as a parameter.
-/

namespace K8sDemo

/-! ## External data (the fields the program reads or writes, plus the rest) -/

/-- Remaining fields of an external record, which the program never touches. -/
abbrev OtherFields := List (String × String)

/-- The `metav1.Time` values, kept by their rendering. -/
structure Time where
  text : String
deriving DecidableEq, Repr

/-- The `metav1.ObjectMeta` record. -/
structure ObjectMeta where
  Name : String
  Namespace : String
  ResourceVersion : String
  Labels : List (String × String)
  other : OtherFields
deriving DecidableEq, Repr

/-- The `apiv1.PodStatus` record. -/
structure PodStatus where
  Phase : String
  StartTime : Option Time
  other : OtherFields
deriving DecidableEq, Repr

/-- The `apiv1.Pod` record. -/
structure Pod where
  ObjectMeta : ObjectMeta
  Status : PodStatus
  other : OtherFields
deriving DecidableEq, Repr

/-- The `apiv1.ContainerPort` record (`Port` is its field `ContainerPort`). -/
structure ContainerPort where
  Name : String
  Protocol : String
  Port : Int
  other : OtherFields
deriving DecidableEq, Repr

/-- The `apiv1.Container` record. -/
structure Container where
  Name : String
  Image : String
  Ports : List ContainerPort
  other : OtherFields
deriving DecidableEq, Repr

/-- The `apiv1.PodSpec` record. -/
structure PodSpec where
  Containers : List Container
  other : OtherFields
deriving DecidableEq, Repr

/-- The `apiv1.PodTemplateSpec` record. -/
structure PodTemplateSpec where
  ObjectMeta : ObjectMeta
  Spec : PodSpec
deriving DecidableEq, Repr

/-- The `metav1.LabelSelector` record. -/
structure LabelSelector where
  MatchLabels : List (String × String)
  other : OtherFields
deriving DecidableEq, Repr

/-- The `appsv1.DeploymentSpec` record; `Replicas` is a nullable `int32`. -/
structure DeploymentSpec where
  Replicas : Option Int
  Selector : Option LabelSelector
  Template : PodTemplateSpec
  other : OtherFields
deriving DecidableEq, Repr

/-- The `appsv1.Deployment` record. -/
structure Deployment where
  ObjectMeta : ObjectMeta
  Spec : DeploymentSpec
  Status : OtherFields
deriving DecidableEq, Repr

/-- The `extsv1beta.Deployment` record; `svcTest` reads only its name. -/
structure ExtDeployment where
  ObjectMeta : ObjectMeta
  other : OtherFields
deriving DecidableEq, Repr

/-- The `apiv1.ServicePort` record. -/
structure ServicePort where
  Name : String
  Protocol : String
  Port : Int
  TargetPort : String
  NodePort : Int
deriving DecidableEq, Repr

/-- The `apiv1.ServiceSpec` record. -/
structure ServiceSpec where
  Ports : List ServicePort
  other : OtherFields
deriving DecidableEq, Repr

/-- The `apiv1.Service` record. -/
structure Service where
  ObjectMeta : ObjectMeta
  Spec : ServiceSpec
  Status : OtherFields
deriving DecidableEq, Repr

/-- The `metav1.DeleteOptions` record; the propagation policy is nullable. -/
structure DeleteOptions where
  PropagationPolicy : Option String
deriving DecidableEq, Repr

/-- The `metav1.Status` record carried by an API status error. -/
structure Status where
  Reason : String
  Message : String
  other : OtherFields
deriving DecidableEq, Repr

/-- A non-nil Go `error`, by what the program can observe of it: whether its
dynamic type is `*errors.StatusError` (then its `ErrStatus`), or not (then
only its text). -/
inductive GoError where
  | statusError (ErrStatus : Status)
  | other (text : String)
deriving DecidableEq, Repr

/-- The `watch.Event` record (`EventType` is its field `Type`); `Object` is a
nullable interface value. -/
structure WatchEvent where
  EventType : String
  Object : Option String
deriving DecidableEq, Repr

/-- The `rest.Config` value built from the kubeconfig file. -/
structure RestConfig where
  text : String
deriving DecidableEq, Repr

/-- The `kubernetes.Clientset` handle. -/
structure Clientset where
  text : String
deriving DecidableEq, Repr

/-- A value handed to `fmt.Printf`, `fmt.Println` or `fmt.Errorf`. -/
inductive Value where
  | str (s : String)
  | int (n : Int)
  | time (t : Option Time)
  | object (o : Option String)
  | error (e : GoError)
deriving DecidableEq, Repr

/-- A flag registered with `flag.String`. -/
structure FlagDef where
  name : String
  value : String
  usage : String
deriving DecidableEq, Repr

/-! ## Constants and predicates of the client library -/

/-- The constant `metav1.StatusReasonNotFound`. -/
def StatusReasonNotFound : String := "NotFound"

/-- The constant `metav1.StatusReasonConflict`. -/
def StatusReasonConflict : String := "Conflict"

/-- The constant `metav1.StatusReasonUnknown`. -/
def StatusReasonUnknown : String := ""

/-- The constant `apiv1.NamespaceDefault` (also `metav1.NamespaceDefault`). -/
def NamespaceDefault : String := "default"

/-- The constant `metav1.DeletePropagationForeground`. -/
def DeletePropagationForeground : String := "Foreground"

/-- The constant `apiv1.ProtocolTCP`. -/
def ProtocolTCP : String := "TCP"

/-- The library function `errors.ReasonForError`: the reason of an error that
exposes an API status, and the unknown reason otherwise. -/
def ReasonForError : GoError → String
  | .statusError st => st.Reason
  | .other _ => StatusReasonUnknown

/-- The library predicate `errors.IsNotFound` on a nullable error. -/
def IsNotFound : Option GoError → Bool
  | none => false
  | some e => ReasonForError e == StatusReasonNotFound

/-- The Go type assertion `err.(*errors.StatusError)` on a nullable error:
the `ErrStatus` of the error when the assertion holds. -/
def asStatusError : Option GoError → Option Status
  | some (.statusError st) => some st
  | _ => none

/-- The library predicate `errors.IsConflict` on an error. -/
def IsConflict (e : GoError) : Bool :=
  ReasonForError e == StatusReasonConflict

/-! ## Requests, answers and programs -/

/-- A call the program makes to something outside itself. -/
inductive Req where
  | printf (format : String) (args : List Value)
  | println (args : List Value)
  | flagParse (flag : FlagDef)
  | buildConfigFromFlags (masterUrl kubeconfigPath : String)
  | newForConfig (config : RestConfig)
  | listPods (ns : String)
  | getPod (ns name : String)
  | createDeployment (ns : String) (d : Deployment)
  | getDeployment (ns name : String)
  | updateDeployment (ns : String) (d : Deployment)
  | listDeployments (ns : String)
  | deleteDeployment (ns name : String) (opts : DeleteOptions)
  | createExtDeployment (ns : String) (d : ExtDeployment)
  | deleteExtDeployment (ns name : String) (opts : DeleteOptions)
  | createService (ns : String) (svc : Service)
  | getService (ns name : String)
  | updateService (ns : String) (svc : Service)
  | deleteService (ns name : String) (opts : DeleteOptions)
  | readFile (path : String)
  | unmarshalExtDeployment (data : String)
  | unmarshalService (data : String)
  | scanStdin
deriving DecidableEq, Repr

/-- What `flag.Parse` does with the command line: it yields the value of the
flag (the default when the flag is not given) or exits the process. -/
inductive FlagResult where
  | value (v : String)
  | exit (code : Nat)
deriving DecidableEq, Repr

/-- The answer type of each request.  A Go pair `(result, err)` whose error
the program checks before it uses the result is an `Except`. -/
@[reducible]
def Resp : Req → Type
  | .printf _ _ => Unit
  | .println _ => Unit
  | .flagParse _ => FlagResult
  | .buildConfigFromFlags _ _ => Except GoError RestConfig
  | .newForConfig _ => Except GoError Clientset
  | .listPods _ => Except GoError (List Pod)
  | .getPod _ _ => Except GoError Pod
  | .createDeployment _ _ => Except GoError Deployment
  | .getDeployment _ _ => Except GoError Deployment
  | .updateDeployment _ _ => Except GoError Deployment
  | .listDeployments _ => Except GoError (List Deployment)
  | .deleteDeployment _ _ _ => Option GoError
  | .createExtDeployment _ _ => Except GoError ExtDeployment
  | .deleteExtDeployment _ _ _ => Option GoError
  | .createService _ _ => Except GoError Service
  | .getService _ _ => Except GoError Service
  | .updateService _ _ => Except GoError Service
  | .deleteService _ _ _ => Option GoError
  | .readFile _ => Except GoError String
  | .unmarshalExtDeployment _ => Except GoError ExtDeployment
  | .unmarshalService _ => Except GoError Service
  | .scanStdin => Option GoError

/-- The value a panic carries. -/
inductive PanicValue where
  | errorText (e : GoError)
  | error (e : GoError)
  | errorf (format : String) (e : GoError)
  | indexOutOfRange (index length : Nat)
  | nilDereference
deriving DecidableEq, Repr

/-- How a run of the process (or of one function) ends. -/
inductive Outcome (α : Type) where
  | returned (a : α)
  | panicked (v : PanicValue)
  | exited (code : Nat)
deriving DecidableEq, Repr

/-- A sequential Go computation with result type `α`. -/
inductive Prog (α : Type) where
  | done (a : α)
  | panic (v : PanicValue)
  | exit (code : Nat)
  | step (r : Req) (k : Resp r → Prog α)

/-- Sequencing: an outcome other than a normal return ends the computation. -/
def Prog.bind {α β : Type} : Prog α → (α → Prog β) → Prog β
  | .done a, f => f a
  | .panic v, _ => .panic v
  | .exit c, _ => .exit c
  | .step r k, f => .step r (fun x => (k x).bind f)

instance : Monad Prog where
  pure := Prog.done
  bind := Prog.bind

/-- Issue one request and return its answer. -/
def call (r : Req) : Prog (Resp r) := .step r .done

/-- The Go statement `for _, x := range xs { body }`. -/
def forEach {α : Type} : List α → (α → Prog Unit) → Prog Unit
  | [], _ => .done ()
  | x :: xs, body => (body x).bind (fun _ => forEach xs body)

/-- One request together with the answer it got (a print has no answer the
program looks at). -/
inductive Event where
  | printf (format : String) (args : List Value)
  | println (args : List Value)
  | flagParse (flag : FlagDef) (res : FlagResult)
  | buildConfigFromFlags (masterUrl kubeconfigPath : String) (res : Except GoError RestConfig)
  | newForConfig (config : RestConfig) (res : Except GoError Clientset)
  | listPods (ns : String) (res : Except GoError (List Pod))
  | getPod (ns name : String) (res : Except GoError Pod)
  | createDeployment (ns : String) (d : Deployment) (res : Except GoError Deployment)
  | getDeployment (ns name : String) (res : Except GoError Deployment)
  | updateDeployment (ns : String) (d : Deployment) (res : Except GoError Deployment)
  | listDeployments (ns : String) (res : Except GoError (List Deployment))
  | deleteDeployment (ns name : String) (opts : DeleteOptions) (err : Option GoError)
  | createExtDeployment (ns : String) (d : ExtDeployment) (res : Except GoError ExtDeployment)
  | deleteExtDeployment (ns name : String) (opts : DeleteOptions) (err : Option GoError)
  | createService (ns : String) (svc : Service) (res : Except GoError Service)
  | getService (ns name : String) (res : Except GoError Service)
  | updateService (ns : String) (svc : Service) (res : Except GoError Service)
  | deleteService (ns name : String) (opts : DeleteOptions) (err : Option GoError)
  | readFile (path : String) (res : Except GoError String)
  | unmarshalExtDeployment (data : String) (res : Except GoError ExtDeployment)
  | unmarshalService (data : String) (res : Except GoError Service)
  | scanStdin (err : Option GoError)

/-- The event of a request and its answer. -/
@[simp]
def Event.of : (r : Req) → Resp r → Event
  | .printf format args, _ => .printf format args
  | .println args, _ => .println args
  | .flagParse flag, x => .flagParse flag x
  | .buildConfigFromFlags masterUrl path, x => .buildConfigFromFlags masterUrl path x
  | .newForConfig config, x => .newForConfig config x
  | .listPods ns, x => .listPods ns x
  | .getPod ns name, x => .getPod ns name x
  | .createDeployment ns d, x => .createDeployment ns d x
  | .getDeployment ns name, x => .getDeployment ns name x
  | .updateDeployment ns d, x => .updateDeployment ns d x
  | .listDeployments ns, x => .listDeployments ns x
  | .deleteDeployment ns name opts, x => .deleteDeployment ns name opts x
  | .createExtDeployment ns d, x => .createExtDeployment ns d x
  | .deleteExtDeployment ns name opts, x => .deleteExtDeployment ns name opts x
  | .createService ns svc, x => .createService ns svc x
  | .getService ns name, x => .getService ns name x
  | .updateService ns svc, x => .updateService ns svc x
  | .deleteService ns name opts, x => .deleteService ns name opts x
  | .readFile path, x => .readFile path x
  | .unmarshalExtDeployment data, x => .unmarshalExtDeployment data x
  | .unmarshalService data, x => .unmarshalService data x
  | .scanStdin, x => .scanStdin x

/-- What a run leaves behind: the trace, the outcome and the final state of
the outside world. -/
structure Result (σ α : Type) where
  trace : List Event
  outcome : Outcome α
  world : σ

/-- Run a program against a handler of its requests. -/
def run {σ α : Type} (h : (r : Req) → σ → Resp r × σ) : Prog α → σ → Result σ α
  | .done a, s => ⟨[], .returned a, s⟩
  | .panic v, s => ⟨[], .panicked v, s⟩
  | .exit c, s => ⟨[], .exited c, s⟩
  | .step r k, s =>
    let res := run h (k (h r s).1) (h r s).2
    ⟨Event.of r (h r s).1 :: res.trace, res.outcome, res.world⟩

/-- Every execution of the program, whatever the answers, satisfies `post`. -/
def Prog.all {α : Type} : Prog α → (List Event → Outcome α → Prop) → Prop
  | .done a, post => post [] (.returned a)
  | .panic v, post => post [] (.panicked v)
  | .exit c, post => post [] (.exited c)
  | .step r k, post => ∀ x : Resp r, (k x).all (fun t o => post (Event.of r x :: t) o)

/-! ## Helpers of the embedding -/

/-- The call `fmt.Printf(format, args...)`. -/
def printf (format : String) (args : List Value) : Prog Unit :=
  call (.printf format args)

/-- The call `fmt.Println(args...)`. -/
def println (args : List Value) : Prog Unit :=
  call (.println args)

/-- The Go statement `panic(v)`. -/
def panic {α : Type} (v : PanicValue) : Prog α := .panic v

/-- The error of a Go pair `(result, err)`. -/
def errOf {α : Type} : Except GoError α → Option GoError
  | .ok _ => none
  | .error e => some e

/-- The `wait.Backoff` record, by its number of steps (the durations are
real time and left out). -/
structure Backoff where
  Steps : Nat
deriving DecidableEq, Repr

/-- The library value `retry.DefaultRetry`. -/
def DefaultRetry : Backoff := ⟨5⟩

/-- The loop of the library helper `retry.RetryOnConflict`: at most `n` more
calls of `fn`; a nil error or an error that is not a conflict ends the loop
with that error, a conflict is remembered and `fn` is called again; when the
steps run out the last conflict is the result. -/
def retryLoop (fn : Prog (Option GoError)) : Nat → Option GoError → Prog (Option GoError)
  | 0, lastConflictErr => .done lastConflictErr
  | n + 1, _ => fn.bind fun err =>
    match err with
    | none => .done none
    | some e => if IsConflict e then retryLoop fn n (some e) else .done (some e)

/-- The library helper `retry.RetryOnConflict(backoff, fn)`. -/
def RetryOnConflict (backoff : Backoff) (fn : Prog (Option GoError)) : Prog (Option GoError) :=
  retryLoop fn backoff.Steps none

/-! ## The program (`src/main.go`) -/

/-- The function `homeDir`; `env` is `os.Getenv`. -/
def homeDir (env : String → String) : String :=
  if env "HOME" ≠ "" then env "HOME" else env "USERPROFILE"

/-- The flag that `initClientSet` registers (lines 32 to 37); `join` is
`filepath.Join`. -/
def kubeconfigFlag (join : List String → String) (env : String → String) : FlagDef :=
  if homeDir env ≠ "" then
    ⟨"kubeconfig", join [homeDir env, ".kube", "config"],
      "(optional) absolute path to the kubeconfig file"⟩
  else
    ⟨"kubeconfig", "", "absolute path to the kubeconfig file"⟩

/-- The function `initClientSet`; its Go result `(clientset, err)` is an
`Except`. -/
def initClientSet (join : List String → String) (env : String → String) :
    Prog (Except GoError Clientset) := do
  let parsed ← call (.flagParse (kubeconfigFlag join env))
  match parsed with
  | .exit code => .exit code
  | .value kubeconfig =>
    let config ← call (.buildConfigFromFlags "" kubeconfig)
    match config with
    | .error err => pure (.error err)
    | .ok config =>
      let clientset ← call (.newForConfig config)
      match clientset with
      | .error err => pure (.error err)
      | .ok clientset => pure (.ok clientset)

/-- The function `podTest`. -/
def podTest (_clientset : Clientset) : Prog Unit := do
  let pods ← call (.listPods "")
  match pods with
  | .error err => panic (.errorText err)
  | .ok pods =>
    forEach pods (fun pod =>
      printf "namespace：%s, name: %s, status: %v, startTime: %v\n"
        [.str pod.ObjectMeta.Namespace, .str pod.ObjectMeta.Name,
         .str pod.Status.Phase, .time pod.Status.StartTime])
    printf "Total: %d pods\n" [.int pods.length]
    let namespace_ := "kube-system"
    let pod := "kube-apiserver-docker-for-desktop"
    let got ← call (.getPod namespace_ pod)
    let err := errOf got
    if IsNotFound err then
      printf "Pod %q in namespace %q not found\n" [.str pod, .str namespace_]
    else
      match asStatusError err with
      | some ErrStatus =>
        printf "Error getting pod %q in namespace %q: %v\n"
          [.str pod, .str namespace_, .str ErrStatus.Message]
      | none =>
        match err with
        | some err => panic (.errorText err)
        | none => printf "Found pod %q in namespace %q\n" [.str pod, .str namespace_]

/-- The function `prompt`: `scanStdin` is one `scanner.Scan()` followed by
`scanner.Err()`. -/
def prompt : Prog Unit := do
  printf "-> 按回车继续..." []
  let err ← call .scanStdin
  match err with
  | some err => panic (.error err)
  | none => println []

/-- The Deployment literal built in `deployTest`. -/
def demoDeployment : Deployment :=
  { ObjectMeta := ⟨"demo-deployment", "", "", [], []⟩
    Spec :=
      { Replicas := some 2
        Selector := some ⟨[("app", "demo")], []⟩
        Template :=
          { ObjectMeta := ⟨"", "", "", [("app", "demo")], []⟩
            Spec :=
              { Containers := [⟨"web", "nginx:1.12", [⟨"http", ProtocolTCP, 80, []⟩], []⟩]
                other := [] } }
        other := [] }
    Status := [] }

/-- The closure that `deployTest` hands to `retry.RetryOnConflict`. -/
def deployTest.update : Prog (Option GoError) := do
  let got ← call (.getDeployment NamespaceDefault "demo-deployment")
  match got with
  | .error getErr =>
    panic (.errorf "Failed to get latest version of Deployment: %v" getErr)
  | .ok result =>
    let result := { result with Spec := { result.Spec with Replicas := some 1 } }
    match result.Spec.Template.Spec.Containers with
    | [] => panic (.indexOutOfRange 0 0)
    | c :: cs =>
      let result := { result with Spec := { result.Spec with Template :=
        { result.Spec.Template with Spec := { result.Spec.Template.Spec with
          Containers := { c with Image := "nginx:1.13" } :: cs } } } }
      let updated ← call (.updateDeployment NamespaceDefault result)
      pure (errOf updated)

/-- The function `deployTest`. -/
def deployTest (_clientset : Clientset) : Prog Unit := do
  println [.str "Creating deployment..."]
  let created ← call (.createDeployment NamespaceDefault demoDeployment)
  match created with
  | .error err => panic (.error err)
  | .ok result =>
    printf "Created deployment %q.\n" [.str result.ObjectMeta.Name]
    prompt
    println [.str "Updating deployment..."]
    let retryErr ← RetryOnConflict DefaultRetry deployTest.update
    match retryErr with
    | some retryErr => panic (.errorf "Update failed: %v" retryErr)
    | none =>
      println [.str "Updated deployment..."]
      prompt
      printf "Listing deployments in namespace %q:\n" [.str NamespaceDefault]
      let list ← call (.listDeployments NamespaceDefault)
      match list with
      | .error err => panic (.error err)
      | .ok list =>
        forEach list (fun d =>
          match d.Spec.Replicas with
          | none => panic .nilDereference
          | some replicas =>
            printf " * %s (%d replicas)\n" [.str d.ObjectMeta.Name, .int replicas])
        prompt
        println [.str "Deleting deployment..."]
        let deletePolicy := DeletePropagationForeground
        let err ← call (.deleteDeployment NamespaceDefault "demo-deployment" ⟨some deletePolicy⟩)
        match err with
        | some err => panic (.error err)
        | none => println [.str "Deleted deployment."]

/-- The closure that `svcTest` hands to `retry.RetryOnConflict`; `service` is
the manifest decoded by `svcTest`. -/
def svcTest.update (service : Service) : Prog (Option GoError) := do
  let got ← call (.getService NamespaceDefault service.ObjectMeta.Name)
  match got with
  | .error err => panic (.errorf "Failed to get latest version of Service: %v" err)
  | .ok result =>
    match result.Spec.Ports with
    | [] => panic (.indexOutOfRange 0 0)
    | p :: ps =>
      let result := { result with Spec := { result.Spec with
        Ports := { p with NodePort := 30000 } :: ps } }
      let updated ← call (.updateService NamespaceDefault result)
      pure (errOf updated)

/-- The function `svcTest`. -/
def svcTest (_clientset : Clientset) : Prog Unit := do
  let data ← call (.readFile "demo-deploy.json")
  match data with
  | .error err => panic (.error err)
  | .ok data =>
  let decoded ← call (.unmarshalExtDeployment data)
  match decoded with
  | .error err => panic (.error err)
  | .ok deployment =>
  println [.str "Creating deployment..."]
  let created ← call (.createExtDeployment NamespaceDefault deployment)
  match created with
  | .error err => panic (.error err)
  | .ok result =>
  printf "Created deployment %q.\n" [.str result.ObjectMeta.Name]
  prompt
  let data ← call (.readFile "demo-service.json")
  match data with
  | .error err => panic (.error err)
  | .ok data =>
  let decoded ← call (.unmarshalService data)
  match decoded with
  | .error err => panic (.error err)
  | .ok service =>
  println [.str "Creating Service..."]
  let created ← call (.createService NamespaceDefault service)
  match created with
  | .error err => panic (.error err)
  | .ok resultSvc =>
  printf "Created Service %q.\n" [.str resultSvc.ObjectMeta.Name]
  prompt
  println [.str "Updating Service..."]
  let retryErr ← RetryOnConflict DefaultRetry (svcTest.update service)
  match retryErr with
  | some retryErr => panic (.errorf "Update failed: %v" retryErr)
  | none =>
  printf "Updated Service %q\n" [.str service.ObjectMeta.Name]
  prompt
  println [.str "Deleting Service..."]
  let deletePolicy := DeletePropagationForeground
  let err ← call (.deleteService NamespaceDefault service.ObjectMeta.Name ⟨some deletePolicy⟩)
  match err with
  | some err => panic (.error err)
  | none =>
  printf "Deleted Service %q.\n" [.str service.ObjectMeta.Name]
  prompt
  println [.str "Deleting deployment..."]
  let err ← call (.deleteExtDeployment NamespaceDefault deployment.ObjectMeta.Name
    ⟨some deletePolicy⟩)
  match err with
  | some err => panic (.error err)
  | none => printf "Deleted deployment %q.\n" [.str deployment.ObjectMeta.Name]

/-- The function `main` as shipped: the calls of `startWatch`, `deployTest`
and `svcTest` are commented out in the source. -/
def main (join : List String → String) (env : String → String) : Prog Unit := do
  let clientset ← initClientSet join env
  match clientset with
  | .error err => panic (.error err)
  | .ok clientset => podTest clientset

/-! ## The goroutines of `startWatch` -/

/-- A watcher (`watch.Interface`), by the state of its result channel: the
events sent and not yet received, and whether the sender has closed it. -/
structure Watcher where
  pending : List WatchEvent
  closed : Bool
deriving DecidableEq, Repr

/-- The Go receive `e, _ := <-w.ResultChan()`: the next event; on a closed and
drained channel the zero `watch.Event`, at once; on an open and empty channel
the receive blocks (`none`). -/
def Watcher.receive : Watcher → Option (WatchEvent × Watcher)
  | ⟨e :: rest, closed⟩ => some (e, ⟨rest, closed⟩)
  | ⟨[], true⟩ => some (⟨"", none⟩, ⟨[], true⟩)
  | ⟨[], false⟩ => none

/-- Where a goroutine stands: between two iterations of its loop, blocked in
the receive, or ended by a panic (which aborts the process).  The loop has no
exit. -/
inductive GoroutineStatus where
  | running
  | waiting
  | panicked (v : PanicValue)
deriving DecidableEq, Repr

/-- What is observed of a goroutine of `startWatch`: the argument lists of its
`fmt.Println` calls in order, its status, and its watcher. -/
structure Goroutine where
  printed : List (List Value)
  status : GoroutineStatus
  watcher : Option Watcher
deriving DecidableEq, Repr

/-- The loop `for { select { case e, _ := <-w.ResultChan(): fmt.Println(e.Type,
e.Object) } }`, observed for at most `fuel` iterations. -/
def watchLoop : Nat → Watcher → List (List Value) → Goroutine
  | 0, w, printed => ⟨printed, .running, some w⟩
  | fuel + 1, w, printed =>
    match w.receive with
    | none => ⟨printed, .waiting, some w⟩
    | some (e, w') => watchLoop fuel w' (printed ++ [[.str e.EventType, .object e.Object]])

/-- One goroutine of `startWatch`: `watch` is the Go pair `(w, err)` that the
Watch call returned; the error is discarded, and `w.ResultChan()` on a nil
watcher is a nil dereference. -/
def watchGoroutine (watch : Option Watcher × Option GoError) (fuel : Nat) : Goroutine :=
  match watch.1 with
  | none => ⟨[], .panicked .nilDereference, none⟩
  | some w => watchLoop fuel w []

/-- The function `startWatch`: its two goroutines, the first on the
Deployments and the second on the Services of the default namespace; they
share no state. -/
def startWatch (_clientset : Clientset) (deployWatch svcWatch : Option Watcher × Option GoError)
    (fuel : Nat) : Goroutine × Goroutine :=
  (watchGoroutine deployWatch fuel, watchGoroutine svcWatch fuel)

/-! ## Classification of events -/

/-- The events that are calls on cluster resources (list, get, create,
update, delete). -/
def Event.isResourceCall : Event → Bool
  | .listPods _ _ => true
  | .getPod _ _ _ => true
  | .createDeployment _ _ _ => true
  | .getDeployment _ _ _ => true
  | .updateDeployment _ _ _ => true
  | .listDeployments _ _ => true
  | .deleteDeployment _ _ _ _ => true
  | .createExtDeployment _ _ _ => true
  | .deleteExtDeployment _ _ _ _ => true
  | .createService _ _ _ => true
  | .getService _ _ _ => true
  | .updateService _ _ _ => true
  | .deleteService _ _ _ _ => true
  | _ => false

/-- The events that are mutating calls (create, update, delete). -/
def Event.isMutating : Event → Bool
  | .createDeployment _ _ _ => true
  | .updateDeployment _ _ _ => true
  | .deleteDeployment _ _ _ _ => true
  | .createExtDeployment _ _ _ => true
  | .deleteExtDeployment _ _ _ _ => true
  | .createService _ _ _ => true
  | .updateService _ _ _ => true
  | .deleteService _ _ _ _ => true
  | _ => false

/-- The single-pod Get events. -/
def Event.isGetPod : Event → Bool
  | .getPod _ _ _ => true
  | _ => false

/-- The error with which the call of an event failed, if it failed. -/
def Event.failure : Event → Option GoError
  | .printf _ _ => none
  | .println _ => none
  | .flagParse _ _ => none
  | .buildConfigFromFlags _ _ res => errOf res
  | .newForConfig _ res => errOf res
  | .listPods _ res => errOf res
  | .getPod _ _ res => errOf res
  | .createDeployment _ _ res => errOf res
  | .getDeployment _ _ res => errOf res
  | .updateDeployment _ _ res => errOf res
  | .listDeployments _ res => errOf res
  | .deleteDeployment _ _ _ err => err
  | .createExtDeployment _ _ res => errOf res
  | .deleteExtDeployment _ _ _ err => err
  | .createService _ _ res => errOf res
  | .getService _ _ res => errOf res
  | .updateService _ _ res => errOf res
  | .deleteService _ _ _ err => err
  | .readFile _ res => errOf res
  | .unmarshalExtDeployment _ res => errOf res
  | .unmarshalService _ res => errOf res
  | .scanStdin err => err

/-- The event is a call that failed. -/
def Event.failed (ev : Event) : Bool := ev.failure.isSome

/-- The events that are calls into the cluster client: config loading, client
construction and the calls on resources. -/
def Event.isClientCall : Event → Bool
  | .buildConfigFromFlags _ _ _ => true
  | .newForConfig _ _ => true
  | ev => ev.isResourceCall

/-- The Update events. -/
def Event.isUpdate : Event → Bool
  | .updateDeployment _ _ _ => true
  | .updateService _ _ _ => true
  | _ => false

/-- The Get events of the two retry closures. -/
def Event.isGet : Event → Bool
  | .getDeployment _ _ _ => true
  | .getService _ _ _ => true
  | _ => false

/-- The panic value is built from the error `e`. -/
def PanicValue.carries (v : PanicValue) (e : GoError) : Prop :=
  v = .errorText e ∨ v = .error e ∨ ∃ format, v = .errorf format e

/-! ## Checks of traces -/

/-- A check of a run that looks at each event together with the event before
it (`Q`), and at the outcome together with the last event (`F`). -/
def monitored {α : Type} (Q : Option Event → Event → Prop)
    (F : Option Event → Outcome α → Prop) : Option Event → List Event → Outcome α → Prop
  | prev, [], o => F prev o
  | prev, ev :: rest, o => Q prev ev ∧ monitored Q F (some ev) rest o

/-- After a failed call nothing follows, except the Get of the next attempt
after an Update that was rejected with a conflict. -/
def failureQ : Option Event → Event → Prop
  | none, _ => True
  | some p, ev =>
    ∀ e, p.failure = some e → p.isUpdate = true ∧ IsConflict e = true ∧ ev.isGet = true

/-- A run whose last call failed ends in a panic built from the error. -/
def failureF : Option Event → Outcome Unit → Prop
  | none, _ => True
  | some p, o => ∀ e, p.failure = some e → ∃ v, o = .panicked v ∧ v.carries e

/-- The Deployment that `deployTest.update` submits, given the Deployment it
fetched and the split of its containers. -/
def updatedDeployment (d : Deployment) (c : Container) (cs : List Container) : Deployment :=
  { d with Spec := { d.Spec with
      Replicas := some 1
      Template := { d.Spec.Template with Spec := { d.Spec.Template.Spec with
        Containers := { c with Image := "nginx:1.13" } :: cs } } } }

/-- The Service that `svcTest.update` submits, given the Service it fetched
and the split of its ports. -/
def updatedService (svc : Service) (p : ServicePort) (ps : List ServicePort) : Service :=
  { svc with Spec := { svc.Spec with Ports := { p with NodePort := 30000 } :: ps } }

/-- An Update of a Deployment comes right after a successful Get of
`demo-deployment` and submits the fetched object, updated. -/
def deployUpdateQ : Option Event → Event → Prop
  | prev, .updateDeployment ns obj _ =>
    ∃ d c cs, prev = some (.getDeployment NamespaceDefault "demo-deployment" (.ok d)) ∧
      d.Spec.Template.Spec.Containers = c :: cs ∧ ns = NamespaceDefault ∧
      obj = updatedDeployment d c cs
  | _, _ => True

/-- What follows a successful Get of a Deployment: the fetched object has a
first container and the next event is the Update of the updated object. -/
def deployGetQ : Option Event → Event → Prop
  | some (.getDeployment _ _ (.ok d)), ev =>
    ∃ c cs res, d.Spec.Template.Spec.Containers = c :: cs ∧
      ev = .updateDeployment NamespaceDefault (updatedDeployment d c cs) res
  | _, _ => True

/-- A run that ends at a successful Get of a Deployment: the fetched object
has no container and the run ends in the index panic. -/
def deployGetF : Option Event → Outcome Unit → Prop
  | some (.getDeployment _ _ (.ok d)), o =>
    d.Spec.Template.Spec.Containers = [] ∧ o = .panicked (.indexOutOfRange 0 0)
  | _, _ => True

/-- What follows a successful Get of a Service: the fetched object has a
first port and the next event is the Update of the updated object. -/
def svcGetQ : Option Event → Event → Prop
  | some (.getService _ _ (.ok svc)), ev =>
    ∃ p ps res, svc.Spec.Ports = p :: ps ∧
      ev = .updateService NamespaceDefault (updatedService svc p ps) res
  | _, _ => True

/-- A run that ends at a successful Get of a Service: the fetched object has
no port and the run ends in the index panic. -/
def svcGetF : Option Event → Outcome Unit → Prop
  | some (.getService _ _ (.ok svc)), o =>
    svc.Spec.Ports = [] ∧ o = .panicked (.indexOutOfRange 0 0)
  | _, _ => True

/-- The check of the runs of `deployTest`, per pair of adjacent events. -/
def deployQ (prev : Option Event) (ev : Event) : Prop :=
  failureQ prev ev ∧ deployUpdateQ prev ev ∧ deployGetQ prev ev

/-- The check of the runs of `deployTest`, at the end of the run. -/
def deployF (last : Option Event) (o : Outcome Unit) : Prop :=
  failureF last o ∧ deployGetF last o

/-- The check of the runs of `svcTest`, per pair of adjacent events. -/
def svcQ (prev : Option Event) (ev : Event) : Prop :=
  failureQ prev ev ∧ svcGetQ prev ev

/-- The check of the runs of `svcTest`, at the end of the run. -/
def svcF (last : Option Event) (o : Outcome Unit) : Prop :=
  failureF last o ∧ svcGetF last o

/-- The previous event, if any, is a call that succeeded and is not a Get of
a retry closure. -/
def quiet : Option Event → Bool
  | none => true
  | some p => p.failure.isNone && !p.isGet

/-- The previous event is quiet or is an Update rejected with a conflict. -/
def retryHead (prev : Option Event) : Prop :=
  quiet prev = true ∨
    ∃ p e, prev = some p ∧ p.isUpdate = true ∧ p.failure = some e ∧ IsConflict e = true

/-- The runs of `podTest`: the trace and the outcome of each of its
executions (established by `podTest_shape`). -/
def podTestRuns (t : List Event) (o : Outcome Unit) : Prop :=
  (∃ err, t = [.listPods "" (.error err)] ∧ o = .panicked (.errorText err)) ∨
  (∃ pods got tail,
    t = .listPods "" (.ok pods) ::
      (pods.map (fun pod => Event.printf "namespace：%s, name: %s, status: %v, startTime: %v\n"
        [.str pod.ObjectMeta.Namespace, .str pod.ObjectMeta.Name,
         .str pod.Status.Phase, .time pod.Status.StartTime]) ++
       [.printf "Total: %d pods\n" [.int pods.length]]) ++
      .getPod "kube-system" "kube-apiserver-docker-for-desktop" got :: tail ∧
    ((IsNotFound (errOf got) = true ∧
        tail = [.printf "Pod %q in namespace %q not found\n"
          [.str "kube-apiserver-docker-for-desktop", .str "kube-system"]] ∧
        o = .returned ()) ∨
      (IsNotFound (errOf got) = false ∧ ∃ st, got = .error (.statusError st) ∧
        tail = [.printf "Error getting pod %q in namespace %q: %v\n"
          [.str "kube-apiserver-docker-for-desktop", .str "kube-system", .str st.Message]] ∧
        o = .returned ()) ∨
      (∃ text, got = .error (.other text) ∧ tail = [] ∧
        o = .panicked (.errorText (.other text))) ∨
      (∃ pod, got = .ok pod ∧
        tail = [.printf "Found pod %q in namespace %q\n"
          [.str "kube-apiserver-docker-for-desktop", .str "kube-system"]] ∧
        o = .returned ())))

/-! ## Sample clusters (concrete handlers and data) -/

/-- A sample clientset handle. -/
def sampleClientset : Clientset := ⟨"docker-for-desktop"⟩

/-- Two sample pods. -/
def samplePods : List Pod :=
  [⟨⟨"kube-dns", "kube-system", "41", [], []⟩, ⟨"Running", some ⟨"2018-07-24 09:35:00"⟩, []⟩, []⟩,
   ⟨⟨"web", "default", "57", [], []⟩, ⟨"Pending", none, []⟩, []⟩]

/-- A sample Service manifest with one port. -/
def sampleService : Service :=
  ⟨⟨"demo-service", "default", "", [("app", "demo")], []⟩,
   ⟨[⟨"http", ProtocolTCP, 80, "80", 0⟩], [("type", "NodePort")]⟩, []⟩

/-- A sample Service without ports. -/
def portlessService : Service :=
  ⟨⟨"demo-service", "default", "", [("app", "demo")], []⟩,
   ⟨[], [("type", "ExternalName")]⟩, []⟩

/-- A sample Deployment manifest of the extensions group. -/
def sampleExtDeployment : ExtDeployment :=
  ⟨⟨"demo-deploy", "default", "", [("app", "demo")], []⟩, [("replicas", "2")]⟩

/-- A sample environment with `HOME` set. -/
def sampleEnv : String → String := fun name => if name = "HOME" then "/home/dev" else ""

/-- A sample environment with neither `HOME` nor `USERPROFILE` set. -/
def emptyEnv : String → String := fun _ => ""

/-- A sample path join: the elements separated by a slash. -/
def sampleJoin : List String → String := fun elems => "/".intercalate elems

/-- An API status error: access forbidden. -/
def forbiddenErr : GoError := .statusError ⟨"Forbidden", "pods is forbidden", []⟩

/-- An API status error: not found. -/
def notFoundErr : GoError := .statusError ⟨StatusReasonNotFound, "pods not found", []⟩

/-- An API status error: conflict. -/
def conflictErr : GoError := .statusError ⟨StatusReasonConflict, "object has been modified", []⟩

/-- An error that is not an API status error. -/
def networkErr : GoError := .other "dial tcp: connection refused"

/-- An error of a read of standard input. -/
def stdinErr : GoError := .other "read /dev/stdin: input/output error"

/-- The answers of a cluster in which every call succeeds. -/
def healthy : (r : Req) → Resp r
  | .printf _ _ => ()
  | .println _ => ()
  | .flagParse flag => .value flag.value
  | .buildConfigFromFlags _ path => .ok ⟨path⟩
  | .newForConfig _ => .ok sampleClientset
  | .listPods _ => .ok samplePods
  | .getPod ns name => .ok ⟨⟨name, ns, "7", [], []⟩, ⟨"Running", none, []⟩, []⟩
  | .createDeployment _ d => .ok d
  | .getDeployment _ _ => .ok demoDeployment
  | .updateDeployment _ d => .ok d
  | .listDeployments _ => .ok [demoDeployment]
  | .deleteDeployment _ _ _ => none
  | .createExtDeployment _ d => .ok d
  | .deleteExtDeployment _ _ _ => none
  | .createService _ svc => .ok svc
  | .getService _ _ => .ok sampleService
  | .updateService _ svc => .ok svc
  | .deleteService _ _ _ => none
  | .readFile path => .ok path
  | .unmarshalExtDeployment _ => .ok sampleExtDeployment
  | .unmarshalService _ => .ok sampleService
  | .scanStdin => none

/-- The handler of the healthy cluster; the state counts the requests. -/
def healthyHandler (r : Req) (s : Nat) : Resp r × Nat := (healthy r, s + 1)

/-- A cluster whose pod calls fail: List with `listErr` when given, Get with
`getErr` when given; everything else succeeds. -/
def podFailures (listErr getErr : Option GoError) (r : Req) (s : Nat) : Resp r × Nat :=
  match r with
  | .listPods ns =>
    match listErr with
    | some e => (.error e, s + 1)
    | none => (healthy (.listPods ns), s + 1)
  | .getPod ns name =>
    match getErr with
    | some e => (.error e, s + 1)
    | none => (healthy (.getPod ns name), s + 1)
  | r => (healthy r, s + 1)

/-- A cluster in which the Get of a Service returns `svc`; everything else
succeeds. -/
def getServiceGives (svc : Service) (r : Req) (s : Nat) : Resp r × Nat :=
  match r with
  | .getService _ _ => (.ok svc, s + 1)
  | r => (healthy r, s + 1)

/-- A cluster in which the first `n` Updates of a Deployment are rejected with
a conflict; everything else succeeds.  The state counts the Updates. -/
def conflictsFirst (n : Nat) (r : Req) (s : Nat) : Resp r × Nat :=
  match r with
  | .updateDeployment ns d =>
    if s < n then (.error conflictErr, s + 1) else (healthy (.updateDeployment ns d), s + 1)
  | r => (healthy r, s)

/-- A cluster in which every call succeeds, run with a standard input whose
reads fail. -/
def stdinFails (r : Req) (s : Nat) : Resp r × Nat :=
  match r with
  | .scanStdin => (some stdinErr, s + 1)
  | r => (healthy r, s + 1)

/-! ## Lemmas on programs and runs -/

@[simp]
theorem bind_eq {α β : Type} (P : Prog α) (f : α → Prog β) : (P >>= f) = P.bind f := rfl

@[simp]
theorem pure_eq {α : Type} (a : α) : (pure a : Prog α) = .done a := rfl

@[simp]
theorem errOf_ok {α : Type} (a : α) : errOf (.ok a) = none := rfl

@[simp]
theorem errOf_error {α : Type} (e : GoError) : errOf (.error e : Except GoError α) = some e := rfl

@[simp]
theorem IsNotFound_none : IsNotFound none = false := rfl

@[simp]
theorem asStatusError_none : asStatusError none = none := rfl

@[simp]
theorem asStatusError_other (text : String) : asStatusError (some (.other text)) = none := rfl

@[simp]
theorem asStatusError_statusError (st : Status) :
    asStatusError (some (.statusError st)) = some st := rfl

theorem Prog.bind_done {α β : Type} (a : α) (f : α → Prog β) : (Prog.done a).bind f = f a := rfl

theorem Prog.bind_panic {α β : Type} (v : PanicValue) (f : α → Prog β) :
    (Prog.panic v).bind f = .panic v := rfl

theorem Prog.bind_step {α β : Type} (r : Req) (k : Resp r → Prog α) (f : α → Prog β) :
    (Prog.step r k).bind f = .step r (fun x => (k x).bind f) := rfl

/-- Sequencing is associative. -/
theorem Prog.bind_assoc {α β γ : Type} (P : Prog α) (f : α → Prog β) (g : β → Prog γ) :
    (P.bind f).bind g = P.bind (fun a => (f a).bind g) := by
  induction P with
  | done a => rfl
  | panic v => rfl
  | exit c => rfl
  | step r k ih => simp only [Prog.bind, ih]

/-- A weaker postcondition holds of every execution too. -/
theorem Prog.all_mono {α : Type} (P : Prog α) {post post' : List Event → Outcome α → Prop}
    (hpp : ∀ t o, post t o → post' t o) : P.all post → P.all post' := by
  induction P generalizing post post' with
  | done a => exact hpp _ _
  | panic v => exact hpp _ _
  | exit c => exact hpp _ _
  | step r k ih =>
    intro hall x
    exact ih x (fun t o => hpp _ o) (hall x)

/-- A postcondition that holds of everything holds of every execution. -/
theorem Prog.all_of_forall {α : Type} (P : Prog α) {post : List Event → Outcome α → Prop}
    (hp : ∀ t o, post t o) : P.all post := by
  induction P generalizing post with
  | done a => exact hp _ _
  | panic v => exact hp _ _
  | exit c => exact hp _ _
  | step r k ih => intro x; exact ih x (fun t o => hp _ o)

@[simp]
theorem Prog.all_true {α : Type} (P : Prog α) : P.all (fun _ _ => True) :=
  P.all_of_forall (fun _ _ => trivial)

/-- A fact that does not depend on the execution can be taken out of the
postcondition (every program has an execution). -/
theorem Prog.all_and_const {α : Type} (P : Prog α) (A : Prop)
    (post : List Event → Outcome α → Prop) :
    P.all (fun t o => A ∧ post t o) ↔ A ∧ P.all post := by
  induction P generalizing post with
  | done a => exact Iff.rfl
  | panic v => exact Iff.rfl
  | exit c => exact Iff.rfl
  | step r k ih =>
    simp only [Prog.all]
    constructor
    · intro hall
      exact ⟨((ih (healthy r) _).1 (hall (healthy r))).1, fun x => ((ih x _).1 (hall x)).2⟩
    · rintro ⟨ha, hall⟩ x
      exact (ih x _).2 ⟨ha, hall x⟩

/-- What holds of every execution of a program holds of its run against any handler,
from any state. -/
theorem run_all {σ α : Type} (h : (r : Req) → σ → Resp r × σ) (P : Prog α)
    (post : List Event → Outcome α → Prop) (hall : P.all post) (s : σ) :
    post (run h P s).trace (run h P s).outcome := by
  induction P generalizing post s with
  | done a => exact hall
  | panic v => exact hall
  | exit c => exact hall
  | step r k ih => exact ih (h r s).1 _ (hall (h r s).1) (h r s).2

/-- A range loop whose body is one `fmt.Printf` adds one line per element, in order. -/
theorem forEach_printf_all {α : Type} (xs : List α) (fmt : String) (args : α → List Value)
    (k : Prog Unit) (post : List Event → Outcome Unit → Prop) :
    ((forEach xs (fun x => printf fmt (args x))).bind (fun _ => k)).all post ↔
      k.all (fun t o => post (xs.map (fun x => Event.printf fmt (args x)) ++ t) o) := by
  induction xs generalizing post with
  | nil => simp [forEach, Prog.bind]
  | cons x xs ih =>
    simp only [forEach, printf, call, Prog.bind, Prog.all, List.map_cons, List.cons_append,
      Event.of]
    constructor
    · intro h
      exact (ih _).1 (h ())
    · intro h _
      exact (ih _).2 h

/-- The first attempt of the retry helper with the default backoff. -/
theorem retry_unroll (fn : Prog (Option GoError)) :
    RetryOnConflict DefaultRetry fn = fn.bind (fun err =>
      match err with
      | none => .done none
      | some e => if IsConflict e then retryLoop fn 4 (some e) else .done (some e)) := rfl

/-! ## Lemmas on traces and their checks -/

/-- Where a marked event sits in a trace is determined, when no other event
of the trace is marked. -/
theorem append_cons_unique {P : Event → Bool} {A B pre post : List Event} {g g' : Event}
    (hA : ∀ ev ∈ A, P ev = false) (hB : ∀ ev ∈ B, P ev = false) (hg' : P g' = true)
    (heq : A ++ g :: B = pre ++ g' :: post) : pre = A ∧ g' = g ∧ post = B := by
  induction A generalizing pre with
  | nil =>
    cases pre with
    | nil =>
      simp only [List.nil_append, List.cons.injEq] at heq
      exact ⟨rfl, heq.1.symm, heq.2.symm⟩
    | cons p pre =>
      simp only [List.nil_append, List.cons_append, List.cons.injEq] at heq
      have hmem : g' ∈ B := by rw [heq.2]; simp
      have := hB g' hmem
      rw [hg'] at this
      cases this
  | cons a A ih =>
    cases pre with
    | nil =>
      simp only [List.nil_append, List.cons_append, List.cons.injEq] at heq
      have := hA a (by simp)
      rw [heq.1, hg'] at this
      cases this
    | cons p pre =>
      simp only [List.cons_append, List.cons.injEq] at heq
      obtain ⟨h1, h2, h3⟩ := ih (fun ev hev => hA ev (by simp [hev])) heq.2
      exact ⟨by rw [heq.1, h1], h2, h3⟩

/-- No event of a trace whose events all succeeded is a failed call. -/
theorem not_failed_of_mem {t pre post : List Event} {ev : Event}
    (hall : ∀ x ∈ t, Event.failed x = false) (ht : t = pre ++ ev :: post) :
    Event.failed ev = false :=
  hall ev (by rw [ht]; simp)

/-- The check of a program that starts with a request. -/
theorem monitored_step {α : Type} (Q : Option Event → Event → Prop)
    (F : Option Event → Outcome α → Prop) (prev : Option Event) (r : Req)
    (k : Resp r → Prog α) :
    (Prog.step r k).all (monitored Q F prev) ↔
      ∀ x, Q prev (Event.of r x) ∧ (k x).all (monitored Q F (some (Event.of r x))) := by
  simp only [Prog.all, monitored]
  constructor
  · intro hall x
    exact (Prog.all_and_const _ _ _).1 (hall x)
  · intro hall x
    exact (Prog.all_and_const _ _ _).2 (hall x)

/-- The check of a program that returns. -/
theorem monitored_done {α : Type} (Q : Option Event → Event → Prop)
    (F : Option Event → Outcome α → Prop) (prev : Option Event) (a : α) :
    (Prog.done a).all (monitored Q F prev) ↔ F prev (.returned a) := Iff.rfl

/-- The check of a sequence of two programs. -/
theorem monitored_bind {α β : Type} (Q : Option Event → Event → Prop)
    (F : Option Event → Outcome β → Prop) (P : Prog α) (f : α → Prog β) (prev : Option Event) :
    (P.bind f).all (monitored Q F prev) ↔
      P.all (monitored Q (fun last o =>
        match o with
        | .returned a => (f a).all (monitored Q F last)
        | .panicked v => F last (.panicked v)
        | .exited c => F last (.exited c)) prev) := by
  induction P generalizing prev with
  | done a => exact Iff.rfl
  | panic v => exact Iff.rfl
  | exit c => exact Iff.rfl
  | step r k ih =>
    simp only [Prog.bind, monitored_step]
    constructor
    · intro hall x
      exact ⟨(hall x).1, (ih x _).1 (hall x).2⟩
    · intro hall x
      exact ⟨(hall x).1, (ih x _).2 (hall x).2⟩

/-- A check with weaker conditions is passed too. -/
theorem monitored_mono {α : Type} {Q Q' : Option Event → Event → Prop}
    {F F' : Option Event → Outcome α → Prop} (hQ : ∀ prev ev, Q prev ev → Q' prev ev)
    (hF : ∀ last o, F last o → F' last o) (prev : Option Event) (t : List Event)
    (o : Outcome α) : monitored Q F prev t o → monitored Q' F' prev t o := by
  induction t generalizing prev with
  | nil => exact hF _ _
  | cons ev rest ih => exact fun hm => ⟨hQ _ _ hm.1, ih _ hm.2⟩

/-- What a passed check says of two adjacent events. -/
theorem monitored_adjacent {α : Type} {Q : Option Event → Event → Prop}
    {F : Option Event → Outcome α → Prop} {prev : Option Event} {t pre post : List Event}
    {a b : Event} {o : Outcome α} (hm : monitored Q F prev t o)
    (ht : t = pre ++ a :: b :: post) : Q (some a) b := by
  induction pre generalizing prev t with
  | nil =>
    subst ht
    exact hm.2.1
  | cons x pre ih =>
    subst ht
    exact ih hm.2 rfl

/-- What a passed check says of the last event and the outcome. -/
theorem monitored_last {α : Type} {Q : Option Event → Event → Prop}
    {F : Option Event → Outcome α → Prop} {prev : Option Event} {t pre : List Event}
    {a : Event} {o : Outcome α} (hm : monitored Q F prev t o)
    (ht : t = pre ++ [a]) : F (some a) o := by
  induction pre generalizing prev t with
  | nil =>
    subst ht
    exact hm.2
  | cons x pre ih =>
    subst ht
    exact ih hm.2 rfl

/-- What a passed check says of the first event. -/
theorem monitored_first {α : Type} {Q : Option Event → Event → Prop}
    {F : Option Event → Outcome α → Prop} {prev : Option Event} {t post : List Event}
    {a : Event} {o : Outcome α} (hm : monitored Q F prev t o)
    (ht : t = a :: post) : Q prev a := by
  subst ht
  exact hm.1

/-- The event before an event that is not the first of the trace. -/
theorem monitored_before {α : Type} {Q : Option Event → Event → Prop}
    {F : Option Event → Outcome α → Prop} {t pre post : List Event}
    {b : Event} {o : Outcome α} (hm : monitored Q F none t o)
    (ht : t = pre ++ b :: post) :
    (pre = [] ∧ Q none b) ∨ ∃ pre' a, pre = pre' ++ [a] ∧ Q (some a) b := by
  rcases List.eq_nil_or_concat pre with hnil | ⟨pre', a, hpre⟩
  · subst hnil
    exact Or.inl ⟨rfl, monitored_first hm ht⟩
  · refine Or.inr ⟨pre', a, by simpa using hpre, ?_⟩
    have hadj : t = pre' ++ a :: b :: post := by
      rw [ht, hpre]
      simp
    exact monitored_adjacent hm hadj

/-- What a passed check says of an event of the trace and of what follows
it. -/
theorem monitored_after {α : Type} {Q : Option Event → Event → Prop}
    {F : Option Event → Outcome α → Prop} {prev : Option Event} {t pre post : List Event}
    {a : Event} {o : Outcome α} (hm : monitored Q F prev t o)
    (ht : t = pre ++ a :: post) :
    (post = [] ∧ F (some a) o) ∨ ∃ b post', post = b :: post' ∧ Q (some a) b := by
  cases post with
  | nil => exact Or.inl ⟨rfl, monitored_last hm ht⟩
  | cons b post' => exact Or.inr ⟨b, post', rfl, monitored_adjacent hm ht⟩

/-- The rule for the retry loop followed by `K`: `I` holds of the event before
each attempt. -/
theorem retryLoop_monitored {β : Type} (Q : Option Event → Event → Prop)
    (F : Option Event → Outcome β → Prop) (fn : Prog (Option GoError))
    (K : Option GoError → Prog β) (I : Option Event → Prop)
    (hfn : ∀ prev, I prev → fn.all (monitored Q (fun last o =>
      match o with
      | .returned none => (K none).all (monitored Q F last)
      | .returned (some e) =>
        (IsConflict e = true → I last) ∧ (K (some e)).all (monitored Q F last)
      | .panicked v => F last (.panicked v)
      | .exited c => F last (.exited c)) prev))
    (n : Nat) (prev : Option Event) (lastErr : Option GoError) (hI : I prev)
    (h0 : n = 0 → (K lastErr).all (monitored Q F prev)) :
    ((retryLoop fn n lastErr).bind K).all (monitored Q F prev) := by
  induction n generalizing prev lastErr with
  | zero => exact h0 rfl
  | succ n ih =>
    simp only [retryLoop, Prog.bind_assoc]
    rw [monitored_bind]
    refine Prog.all_mono _ ?_ (hfn prev hI)
    intro t o
    refine monitored_mono (fun _ _ hq => hq) ?_ prev t o
    intro last o hG
    cases o with
    | returned err =>
      cases err with
      | none => exact hG
      | some e =>
        by_cases hc : IsConflict e = true
        · simp only [hc, if_true]
          exact ih last (some e) (hG.1 hc) (fun _ => hG.2)
        · simp only [hc, if_false]
          exact hG.2
    | panicked v => exact hG
    | exited c => exact hG

/-- The rule for a range loop followed by `K`: `I` holds of the event before
each iteration. -/
theorem forEach_monitored {α β : Type} (Q : Option Event → Event → Prop)
    (F : Option Event → Outcome β → Prop) (body : α → Prog Unit) (K : Prog β)
    (I : Option Event → Prop)
    (hbody : ∀ x prev, I prev → (body x).all (monitored Q (fun last o =>
      match o with
      | .returned _ => I last
      | .panicked v => F last (.panicked v)
      | .exited c => F last (.exited c)) prev))
    (hK : ∀ prev, I prev → K.all (monitored Q F prev))
    (xs : List α) (prev : Option Event) (hI : I prev) :
    ((forEach xs body).bind (fun _ => K)).all (monitored Q F prev) := by
  induction xs generalizing prev with
  | nil => exact hK prev hI
  | cons x xs ih =>
    simp only [forEach, Prog.bind_assoc]
    rw [monitored_bind]
    refine Prog.all_mono _ ?_ (hbody x prev hI)
    intro t o
    refine monitored_mono (fun _ _ hq => hq) ?_ prev t o
    intro last o hG
    cases o with
    | returned u => exact ih last hG
    | panicked v => exact hG
    | exited c => exact hG

/-- The rule for `prompt` followed by `K`. -/
theorem prompt_monitored {β : Type} (Q : Option Event → Event → Prop)
    (F : Option Event → Outcome β → Prop) (f : Unit → Prog β) (prev : Option Event)
    (h1 : Q prev (.printf "-> 按回车继续..." []))
    (h2 : ∀ err, Q (some (.printf "-> 按回车继续..." [])) (.scanStdin err))
    (h3 : ∀ e, F (some (.scanStdin (some e))) (.panicked (.error e)))
    (h4 : Q (some (.scanStdin none)) (.println []))
    (h5 : (f ()).all (monitored Q F (some (.println [])))) :
    (prompt.bind f).all (monitored Q F prev) := by
  simp only [prompt, bind_eq, printf, println, call, Prog.bind_step, Prog.bind_done,
    monitored_step, Event.of]
  intro _
  refine ⟨h1, fun err => ⟨h2 err, ?_⟩⟩
  cases err with
  | some e => exact h3 e
  | none =>
    simp only [Prog.bind_step, Prog.bind_done, monitored_step, Event.of]
    exact fun _ => ⟨h4, h5⟩

/-! ## The kubeconfig flag -/

/-- C3: the flag that `initClientSet` registers first is `kubeconfigFlag`.
With `home` the value of `HOME` when that is not empty and the value of
`USERPROFILE` otherwise, its default is the join of `home`, `.kube` and
`config` whenever `home` is not empty; it is the empty string when `HOME` and
`USERPROFILE` are both empty, and (the join of a non-empty `home` being
non-empty) only then; a non-empty `HOME` wins over `USERPROFILE`. -/
theorem kubeconfig_default (join : List String → String) (env : String → String) :
    (∃ k, initClientSet join env = .step (.flagParse (kubeconfigFlag join env)) k) ∧
    ((if env "HOME" ≠ "" then env "HOME" else env "USERPROFILE") ≠ "" →
      (kubeconfigFlag join env).value =
        join [if env "HOME" ≠ "" then env "HOME" else env "USERPROFILE", ".kube", "config"]) ∧
    (env "HOME" = "" ∧ env "USERPROFILE" = "" → (kubeconfigFlag join env).value = "") ∧
    (join [if env "HOME" ≠ "" then env "HOME" else env "USERPROFILE", ".kube", "config"] ≠ "" →
      (kubeconfigFlag join env).value = "" → env "HOME" = "" ∧ env "USERPROFILE" = "") ∧
    (env "HOME" ≠ "" → (kubeconfigFlag join env).value = join [env "HOME", ".kube", "config"]) := by
  refine ⟨⟨_, rfl⟩, ?_, ?_, ?_, ?_⟩
  · intro hne
    simp only [kubeconfigFlag, homeDir]
    rw [if_pos hne]
  · rintro ⟨h1, h2⟩
    simp [kubeconfigFlag, homeDir, h1, h2]
  · intro hj hv
    by_cases hh : (if env "HOME" ≠ "" then env "HOME" else env "USERPROFILE") = ""
    · by_cases h1 : env "HOME" = ""
      · simp only [h1, ne_eq, not_true_eq_false, if_false] at hh
        exact ⟨h1, hh⟩
      · simp only [ne_eq, h1, not_false_eq_true, if_true] at hh
    · have hval : (kubeconfigFlag join env).value =
          join [if env "HOME" ≠ "" then env "HOME" else env "USERPROFILE", ".kube", "config"] := by
        simp only [kubeconfigFlag, homeDir]
        rw [if_pos hh]
      rw [hval] at hv
      exact absurd hv hj
  · intro h1
    simp [kubeconfigFlag, homeDir, h1]

theorem kubeconfig_default_witness :
    ((if sampleEnv "HOME" ≠ "" then sampleEnv "HOME" else sampleEnv "USERPROFILE") ≠ "" ∧
      (kubeconfigFlag sampleJoin sampleEnv).value =
        sampleJoin [if sampleEnv "HOME" ≠ "" then sampleEnv "HOME" else sampleEnv "USERPROFILE",
          ".kube", "config"]) ∧
    ((emptyEnv "HOME" = "" ∧ emptyEnv "USERPROFILE" = "") ∧
      (kubeconfigFlag sampleJoin emptyEnv).value = "") ∧
    (sampleJoin [if emptyEnv "HOME" ≠ "" then emptyEnv "HOME" else emptyEnv "USERPROFILE",
        ".kube", "config"] ≠ "" ∧
      (kubeconfigFlag sampleJoin emptyEnv).value = "" ∧
      emptyEnv "HOME" = "" ∧ emptyEnv "USERPROFILE" = "") ∧
    (sampleEnv "HOME" ≠ "" ∧
      (kubeconfigFlag sampleJoin sampleEnv).value = "/home/dev/.kube/config") :=
  ⟨⟨by decide, (kubeconfig_default sampleJoin sampleEnv).2.1 (by decide)⟩,
   ⟨⟨rfl, rfl⟩, (kubeconfig_default sampleJoin emptyEnv).2.2.1 ⟨rfl, rfl⟩⟩,
   ⟨by decide, by decide,
     (kubeconfig_default sampleJoin emptyEnv).2.2.2.1 (by decide) (by decide)⟩,
   ⟨by decide, (kubeconfig_default sampleJoin sampleEnv).2.2.2.2 (by decide)⟩⟩

/-! ## `podTest` and `main` -/

/-- The shape of every execution of `podTest`. -/
theorem podTest_shape (cs : Clientset) : (podTest cs).all (fun t o =>
    (∃ err, t = [.listPods "" (.error err)] ∧ o = .panicked (.errorText err)) ∨
    (∃ pods got tail,
      t = .listPods "" (.ok pods) ::
        (pods.map (fun pod => Event.printf "namespace：%s, name: %s, status: %v, startTime: %v\n"
          [.str pod.ObjectMeta.Namespace, .str pod.ObjectMeta.Name,
           .str pod.Status.Phase, .time pod.Status.StartTime]) ++
         [.printf "Total: %d pods\n" [.int pods.length]]) ++
        .getPod "kube-system" "kube-apiserver-docker-for-desktop" got :: tail ∧
      ((IsNotFound (errOf got) = true ∧
          tail = [.printf "Pod %q in namespace %q not found\n"
            [.str "kube-apiserver-docker-for-desktop", .str "kube-system"]] ∧
          o = .returned ()) ∨
        (IsNotFound (errOf got) = false ∧ ∃ st, got = .error (.statusError st) ∧
          tail = [.printf "Error getting pod %q in namespace %q: %v\n"
            [.str "kube-apiserver-docker-for-desktop", .str "kube-system", .str st.Message]] ∧
          o = .returned ()) ∨
        (∃ text, got = .error (.other text) ∧ tail = [] ∧
          o = .panicked (.errorText (.other text))) ∨
        (∃ pod, got = .ok pod ∧
          tail = [.printf "Found pod %q in namespace %q\n"
            [.str "kube-apiserver-docker-for-desktop", .str "kube-system"]] ∧
          o = .returned ())))) := by
  simp only [podTest, bind_eq, pure_eq, call, Prog.bind, Prog.all]
  intro x
  cases x with
  | error e => simp [panic, Prog.all]
  | ok pods =>
    simp only [forEach_printf_all]
    simp only [printf, call, Prog.bind, Prog.all, Event.of]
    intro _ got
    cases got with
    | ok pod =>
      simp only [errOf_ok, IsNotFound_none, asStatusError_none, Bool.false_eq_true, if_false,
        Prog.all, Event.of]
      intro _
      refine Or.inr ⟨pods, .ok pod, _, ?_, Or.inr (Or.inr (Or.inr ⟨pod, rfl, rfl, ?_⟩))⟩ <;> simp
    | error e =>
      by_cases hnf : IsNotFound (some e) = true
      · simp only [errOf_error, hnf, if_true, Prog.all, Event.of]
        intro _
        refine Or.inr ⟨pods, .error e, _, ?_, Or.inl ⟨hnf, rfl, ?_⟩⟩ <;> simp
      · cases e with
        | other text =>
          simp only [errOf_error, hnf, if_false, asStatusError_other, panic, Prog.all, Event.of]
          refine Or.inr ⟨pods, _, _, ?_, Or.inr (Or.inr (Or.inl ⟨text, rfl, rfl, ?_⟩))⟩ <;> simp
        | statusError st =>
          simp only [errOf_error, hnf, if_false, asStatusError_statusError, Prog.all, Event.of]
          intro _
          refine Or.inr ⟨pods, _, _, ?_,
            Or.inr (Or.inl ⟨by simpa using hnf, st, rfl, rfl, ?_⟩)⟩ <;> simp

/-- The shape of every run of `podTest`, for every handler. -/
theorem podTest_run_shape {σ : Type} (cs : Clientset) (h : (r : Req) → σ → Resp r × σ) (s : σ) :
    (∃ err, (run h (podTest cs) s).trace = [.listPods "" (.error err)] ∧
      (run h (podTest cs) s).outcome = .panicked (.errorText err)) ∨
    (∃ pods got tail,
      (run h (podTest cs) s).trace = .listPods "" (.ok pods) ::
        (pods.map (fun pod => Event.printf "namespace：%s, name: %s, status: %v, startTime: %v\n"
          [.str pod.ObjectMeta.Namespace, .str pod.ObjectMeta.Name,
           .str pod.Status.Phase, .time pod.Status.StartTime]) ++
         [.printf "Total: %d pods\n" [.int pods.length]]) ++
        .getPod "kube-system" "kube-apiserver-docker-for-desktop" got :: tail ∧
      ((IsNotFound (errOf got) = true ∧
          tail = [.printf "Pod %q in namespace %q not found\n"
            [.str "kube-apiserver-docker-for-desktop", .str "kube-system"]] ∧
          (run h (podTest cs) s).outcome = .returned ()) ∨
        (IsNotFound (errOf got) = false ∧ ∃ st, got = .error (.statusError st) ∧
          tail = [.printf "Error getting pod %q in namespace %q: %v\n"
            [.str "kube-apiserver-docker-for-desktop", .str "kube-system", .str st.Message]] ∧
          (run h (podTest cs) s).outcome = .returned ()) ∨
        (∃ text, got = .error (.other text) ∧ tail = [] ∧
          (run h (podTest cs) s).outcome = .panicked (.errorText (.other text))) ∨
        (∃ pod, got = .ok pod ∧
          tail = [.printf "Found pod %q in namespace %q\n"
            [.str "kube-apiserver-docker-for-desktop", .str "kube-system"]] ∧
          (run h (podTest cs) s).outcome = .returned ()))) :=
  run_all h (podTest cs) _ (podTest_shape cs) s

/-- C8: in every run of `podTest` the first event is the List of the pods of
all namespaces; when it succeeds with `pods`, what follows is one line per
pod, in the order of the list, showing the namespace, name, phase and start
time of that pod, then the line `Total: N pods` with `N` the number of pods
(so of pod lines), and no further pod line or total line; when it fails the
run ends there, nothing is printed, and the process panics with the text of
the error. -/
theorem podTest_prints_pods {σ : Type} (cs : Clientset) (h : (r : Req) → σ → Resp r × σ)
    (s : σ) :
    (∃ res rest, (run h (podTest cs) s).trace = .listPods "" res :: rest) ∧
    (∀ pods rest, (run h (podTest cs) s).trace = .listPods "" (.ok pods) :: rest →
      ∃ tail,
        rest = pods.map (fun pod =>
            Event.printf "namespace：%s, name: %s, status: %v, startTime: %v\n"
              [.str pod.ObjectMeta.Namespace, .str pod.ObjectMeta.Name,
               .str pod.Status.Phase, .time pod.Status.StartTime]) ++
          .printf "Total: %d pods\n" [.int pods.length] :: tail ∧
        ∀ ev ∈ tail, ∀ args,
          ev ≠ .printf "namespace：%s, name: %s, status: %v, startTime: %v\n" args ∧
          ev ≠ .printf "Total: %d pods\n" args) ∧
    (∀ err rest, (run h (podTest cs) s).trace = .listPods "" (.error err) :: rest →
      rest = [] ∧ (run h (podTest cs) s).outcome = .panicked (.errorText err)) := by
  rcases podTest_run_shape cs h s with ⟨err, ht, ho⟩ | ⟨pods, got, tail, ht, hrep⟩
  · rw [ht, ho]
    simp
  · rw [ht]
    refine ⟨⟨_, _, rfl⟩, ?_, by simp⟩
    intro pods' rest heq
    simp only [List.cons_append, List.cons.injEq, Event.listPods.injEq, Except.ok.injEq,
      true_and] at heq
    obtain ⟨rfl, rfl⟩ := heq
    refine ⟨.getPod "kube-system" "kube-apiserver-docker-for-desktop" got :: tail, by simp, ?_⟩
    rcases hrep with ⟨-, rfl, -⟩ | ⟨-, st, -, rfl, -⟩ | ⟨text, -, rfl, -⟩ | ⟨pod, -, rfl, -⟩ <;>
      simp

theorem podTest_prints_pods_witness :
    ((run healthyHandler (podTest sampleClientset) 0).trace =
        .listPods "" (.ok samplePods) :: (run healthyHandler (podTest sampleClientset) 0).trace.tail ∧
      ∃ tail,
        (run healthyHandler (podTest sampleClientset) 0).trace.tail = samplePods.map (fun pod =>
            Event.printf "namespace：%s, name: %s, status: %v, startTime: %v\n"
              [.str pod.ObjectMeta.Namespace, .str pod.ObjectMeta.Name,
               .str pod.Status.Phase, .time pod.Status.StartTime]) ++
          .printf "Total: %d pods\n" [.int samplePods.length] :: tail ∧
        ∀ ev ∈ tail, ∀ args,
          ev ≠ .printf "namespace：%s, name: %s, status: %v, startTime: %v\n" args ∧
          ev ≠ .printf "Total: %d pods\n" args) ∧
    ((run (podFailures (some networkErr) none) (podTest sampleClientset) 0).trace =
        .listPods "" (.error networkErr) ::
          (run (podFailures (some networkErr) none) (podTest sampleClientset) 0).trace.tail ∧
      (run (podFailures (some networkErr) none) (podTest sampleClientset) 0).trace.tail = [] ∧
      (run (podFailures (some networkErr) none) (podTest sampleClientset) 0).outcome =
        .panicked (.errorText networkErr)) :=
  ⟨⟨rfl, (podTest_prints_pods sampleClientset healthyHandler 0).2.1 samplePods _ rfl⟩,
   ⟨rfl, (podTest_prints_pods sampleClientset (podFailures (some networkErr) none) 0).2.2
      networkErr _ rfl⟩⟩

/-- C6: wherever a run of `podTest` has its single-pod Get, what follows is
decided by the result of that call alone, by the first of four cases that
applies: a not-found error prints the not-found message and the function
returns; any other API status error prints the `Error getting pod` message
with the message of the status and the function returns; any other error
ends the run in a panic with the text of the error; no error prints the
`Found pod` message and the function returns.  The `Found pod` message is in
the trace exactly when the call returned no error. -/
theorem podTest_get_outcomes {σ : Type} (cs : Clientset) (h : (r : Req) → σ → Resp r × σ)
    (s : σ) (pre post : List Event) (ns name : String) (got : Except GoError Pod)
    (htrace : (run h (podTest cs) s).trace = pre ++ .getPod ns name got :: post) :
    (IsNotFound (errOf got) = true →
      post = [.printf "Pod %q in namespace %q not found\n"
        [.str "kube-apiserver-docker-for-desktop", .str "kube-system"]] ∧
      (run h (podTest cs) s).outcome = .returned ()) ∧
    (∀ st, IsNotFound (errOf got) = false → got = .error (.statusError st) →
      post = [.printf "Error getting pod %q in namespace %q: %v\n"
        [.str "kube-apiserver-docker-for-desktop", .str "kube-system", .str st.Message]] ∧
      (run h (podTest cs) s).outcome = .returned ()) ∧
    (∀ text, got = .error (.other text) →
      post = [] ∧ (run h (podTest cs) s).outcome = .panicked (.errorText (.other text))) ∧
    (∀ pod, got = .ok pod →
      post = [.printf "Found pod %q in namespace %q\n"
        [.str "kube-apiserver-docker-for-desktop", .str "kube-system"]] ∧
      (run h (podTest cs) s).outcome = .returned ()) ∧
    (Event.printf "Found pod %q in namespace %q\n"
        [.str "kube-apiserver-docker-for-desktop", .str "kube-system"] ∈
        (run h (podTest cs) s).trace ↔ errOf got = none) := by
  rcases podTest_run_shape cs h s with ⟨err, ht, ho⟩ | ⟨pods, got', tail, ht, hrep⟩
  · rw [ht] at htrace
    have hmem : Event.getPod ns name got ∈ [Event.listPods "" (.error err)] := by
      rw [htrace]; simp
    simp at hmem
  · have htail : ∀ ev ∈ tail, Event.isGetPod ev = false := by
      rcases hrep with ⟨-, rfl, -⟩ | ⟨-, st, -, rfl, -⟩ | ⟨text, -, rfl, -⟩ | ⟨pod, -, rfl, -⟩ <;>
        simp [Event.isGetPod]
    have hfront : ∀ ev ∈ Event.listPods "" (.ok pods) ::
        (pods.map (fun pod => Event.printf "namespace：%s, name: %s, status: %v, startTime: %v\n"
          [.str pod.ObjectMeta.Namespace, .str pod.ObjectMeta.Name,
           .str pod.Status.Phase, .time pod.Status.StartTime]) ++
         [.printf "Total: %d pods\n" [.int pods.length]]), Event.isGetPod ev = false := by
      intro ev hev
      simp only [List.mem_cons, List.mem_append, List.mem_map, List.mem_singleton,
        List.not_mem_nil, or_false] at hev
      rcases hev with rfl | ⟨pod, -, rfl⟩ | rfl <;> rfl
    rw [ht] at htrace
    obtain ⟨-, hg, hpost⟩ := append_cons_unique hfront htail (by rfl) htrace
    simp only [Event.getPod.injEq] at hg
    obtain ⟨-, -, rfl⟩ := hg
    subst hpost
    rw [ht]
    rcases hrep with ⟨hnf, rfl, ho⟩ | ⟨hnf, st, rfl, rfl, ho⟩ | ⟨text, rfl, rfl, ho⟩ |
      ⟨pod, rfl, rfl, ho⟩
    · refine ⟨fun _ => ⟨rfl, ho⟩, ?_, ?_, ?_, ?_⟩
      · intro st h1; rw [hnf] at h1; cases h1
      · intro text hg; rw [hg] at hnf; simp [IsNotFound, ReasonForError, StatusReasonUnknown,
          StatusReasonNotFound] at hnf
      · intro pod hg; rw [hg] at hnf; simp at hnf
      · cases got with
        | ok pod => simp at hnf
        | error e => simp
    · refine ⟨fun h1 => ?_, ?_, ?_, ?_, ?_⟩
      · rw [hnf] at h1; cases h1
      · intro st' _ hg
        simp only [Except.error.injEq, GoError.statusError.injEq] at hg
        subst hg
        exact ⟨rfl, ho⟩
      · intro text hg; simp at hg
      · intro pod hg; simp at hg
      · simp
    · refine ⟨fun h1 => ?_, ?_, ?_, ?_, ?_⟩
      · simp [IsNotFound, ReasonForError, StatusReasonUnknown, StatusReasonNotFound] at h1
      · intro st _ hg; simp at hg
      · intro text' hg
        simp only [Except.error.injEq, GoError.other.injEq] at hg
        subst hg
        exact ⟨rfl, ho⟩
      · intro pod hg; simp at hg
      · simp
    · refine ⟨fun h1 => ?_, ?_, ?_, ?_, ?_⟩
      · simp at h1
      · intro st _ hg; simp at hg
      · intro text hg; simp at hg
      · intro pod' _; exact ⟨rfl, ho⟩
      · simp

theorem podTest_get_outcomes_witness :
    (run (podFailures none (some forbiddenErr)) (podTest sampleClientset) 0).trace =
        (run (podFailures none (some forbiddenErr)) (podTest sampleClientset) 0).trace.take 4 ++
          .getPod "kube-system" "kube-apiserver-docker-for-desktop" (.error forbiddenErr) ::
          [.printf "Error getting pod %q in namespace %q: %v\n"
            [.str "kube-apiserver-docker-for-desktop", .str "kube-system",
             .str "pods is forbidden"]] ∧
      IsNotFound (errOf (.error forbiddenErr : Except GoError Pod)) = false ∧
      (([Event.printf "Error getting pod %q in namespace %q: %v\n"
            [.str "kube-apiserver-docker-for-desktop", .str "kube-system",
             .str "pods is forbidden"]] =
          [.printf "Error getting pod %q in namespace %q: %v\n"
            [.str "kube-apiserver-docker-for-desktop", .str "kube-system",
             .str "pods is forbidden"]]) ∧
        (run (podFailures none (some forbiddenErr)) (podTest sampleClientset) 0).outcome =
          .returned ()) :=
  ⟨rfl, by decide,
    (podTest_get_outcomes sampleClientset (podFailures none (some forbiddenErr)) 0
      ((run (podFailures none (some forbiddenErr)) (podTest sampleClientset) 0).trace.take 4)
      [.printf "Error getting pod %q in namespace %q: %v\n"
        [.str "kube-apiserver-docker-for-desktop", .str "kube-system", .str "pods is forbidden"]]
      "kube-system" "kube-apiserver-docker-for-desktop" (.error forbiddenErr) rfl).2.1 ⟨"Forbidden", "pods is forbidden", []⟩ (by decide) rfl⟩

/-- Every execution of `main` as shipped. -/
theorem main_calls (join : List String → String) (env : String → String) :
    (main join env).all (fun t _ =>
      (t.filter Event.isResourceCall = [] ∨
        (∃ res, t.filter Event.isResourceCall = [.listPods "" res]) ∨
        (∃ res got, t.filter Event.isResourceCall =
          [.listPods "" res, .getPod "kube-system" "kube-apiserver-docker-for-desktop" got])) ∧
      t.filter Event.isMutating = []) := by
  simp only [main, initClientSet, bind_eq, pure_eq, call, Prog.bind, Prog.all, Event.of]
  intro parsed
  cases parsed with
  | exit code => simp [Prog.bind, Prog.all, Event.isResourceCall, Event.isMutating]
  | value kubeconfig =>
    simp only [Prog.bind, Prog.all, Event.of]
    intro config
    cases config with
    | error err => simp [Prog.bind, Prog.all, panic, Event.isResourceCall, Event.isMutating]
    | ok config =>
      simp only [Prog.bind, Prog.all, Event.of]
      intro clientset
      cases clientset with
      | error err => simp [Prog.bind, Prog.all, panic, Event.isResourceCall, Event.isMutating]
      | ok clientset =>
        simp only [Prog.bind]
        refine Prog.all_mono _ ?_ (podTest_shape clientset)
        intro t o hshape
        have hlines : ∀ pods : List Pod, List.filter Event.isResourceCall (pods.map (fun pod =>
            Event.printf "namespace：%s, name: %s, status: %v, startTime: %v\n"
              [.str pod.ObjectMeta.Namespace, .str pod.ObjectMeta.Name,
               .str pod.Status.Phase, .time pod.Status.StartTime])) = [] := by
          intro pods
          simp [List.filter_eq_nil_iff, Event.isResourceCall]
        have hlines' : ∀ pods : List Pod, List.filter Event.isMutating (pods.map (fun pod =>
            Event.printf "namespace：%s, name: %s, status: %v, startTime: %v\n"
              [.str pod.ObjectMeta.Namespace, .str pod.ObjectMeta.Name,
               .str pod.Status.Phase, .time pod.Status.StartTime])) = [] := by
          intro pods
          simp [List.filter_eq_nil_iff, Event.isMutating]
        rcases hshape with ⟨err, rfl, -⟩ | ⟨pods, got, tail, rfl, hrep⟩
        · simp [Event.isResourceCall, Event.isMutating]
        · rcases hrep with ⟨-, rfl, -⟩ | ⟨-, st, -, rfl, -⟩ | ⟨text, -, rfl, -⟩ | ⟨pod, -, rfl, -⟩ <;>
            simp [Event.isResourceCall, Event.isMutating, List.filter_cons, hlines, hlines']

/-- C9: whatever the outside world answers, the calls `main` makes on cluster
resources are none, or one List of the pods of all namespaces, or that List
followed by one Get of the pod `kube-apiserver-docker-for-desktop` in
`kube-system`; no event of the run is a create, an update or a delete (and
`main` starts no watch: the call of `startWatch` is commented out). -/
theorem main_read_only {σ : Type} (join : List String → String) (env : String → String)
    (h : (r : Req) → σ → Resp r × σ) (s : σ) :
    ((run h (main join env) s).trace.filter Event.isResourceCall = [] ∨
      (∃ res, (run h (main join env) s).trace.filter Event.isResourceCall =
        [.listPods "" res]) ∨
      (∃ res got, (run h (main join env) s).trace.filter Event.isResourceCall =
        [.listPods "" res, .getPod "kube-system" "kube-apiserver-docker-for-desktop" got])) ∧
    ∀ ev ∈ (run h (main join env) s).trace, ev.isMutating = false := by
  obtain ⟨h1, h2⟩ := run_all h (main join env) _ (main_calls join env) s
  refine ⟨h1, ?_⟩
  intro ev hev
  have := (List.filter_eq_nil_iff.1 h2) ev hev
  simpa using this

/-- The shape of every execution of `main` as shipped. -/
theorem main_shape (join : List String → String) (env : String → String) :
    (main join env).all (fun t o =>
      (∃ c, t = [.flagParse (kubeconfigFlag join env) (.exit c)] ∧ o = .exited c) ∨
      (∃ k e, t = [.flagParse (kubeconfigFlag join env) (.value k),
          .buildConfigFromFlags "" k (.error e)] ∧ o = .panicked (.error e)) ∨
      (∃ k cfg e, t = [.flagParse (kubeconfigFlag join env) (.value k),
          .buildConfigFromFlags "" k (.ok cfg), .newForConfig cfg (.error e)] ∧
        o = .panicked (.error e)) ∨
      (∃ k cfg c t', t = [.flagParse (kubeconfigFlag join env) (.value k),
          .buildConfigFromFlags "" k (.ok cfg), .newForConfig cfg (.ok c)] ++ t' ∧
        podTestRuns t' o)) := by
  simp only [main, initClientSet, bind_eq, pure_eq, call, Prog.bind_step, Prog.bind_done,
    Prog.all, Event.of]
  intro parsed
  cases parsed with
  | exit code => exact Or.inl ⟨code, rfl, rfl⟩
  | value kubeconfig =>
    simp only [Prog.bind_step, Prog.bind_done, Prog.all, Event.of]
    intro config
    cases config with
    | error err => exact Or.inr (Or.inl ⟨kubeconfig, err, rfl, rfl⟩)
    | ok config =>
      simp only [Prog.bind_step, Prog.bind_done, Prog.all, Event.of]
      intro clientset
      cases clientset with
      | error err => exact Or.inr (Or.inr (Or.inl ⟨kubeconfig, config, err, rfl, rfl⟩))
      | ok clientset =>
        simp only [Prog.bind_done]
        refine Prog.all_mono _ ?_ (podTest_shape clientset)
        intro t o hshape
        exact Or.inr (Or.inr (Or.inr ⟨kubeconfig, config, clientset, t, rfl, hshape⟩))

/-- A failed call into the cluster client by `main`, and what follows it. -/
theorem main_client_error (join : List String → String) (env : String → String) {σ : Type}
    (h : (r : Req) → σ → Resp r × σ) (s : σ) (pre post : List Event) (ev : Event) (e : GoError)
    (htrace : (run h (main join env) s).trace = pre ++ ev :: post)
    (hfail : ev.failure = some e) :
    (ev.isGetPod = false →
      post = [] ∧ ∃ v, (run h (main join env) s).outcome = .panicked v ∧ v.carries e) ∧
    (ev.isGetPod = true →
      (IsNotFound (some e) = true →
        post = [.printf "Pod %q in namespace %q not found\n"
          [.str "kube-apiserver-docker-for-desktop", .str "kube-system"]] ∧
        (run h (main join env) s).outcome = .returned ()) ∧
      (IsNotFound (some e) = false → ∀ st, e = .statusError st →
        post = [.printf "Error getting pod %q in namespace %q: %v\n"
          [.str "kube-apiserver-docker-for-desktop", .str "kube-system", .str st.Message]] ∧
        (run h (main join env) s).outcome = .returned ()) ∧
      (∀ text, e = .other text →
        post = [] ∧ (run h (main join env) s).outcome = .panicked (.errorText e))) := by
  have hfailed : Event.failed ev = true := by simp [Event.failed, hfail]
  rcases run_all h (main join env) _ (main_shape join env) s with
    ⟨c, ht, ho⟩ | ⟨k, e0, ht, ho⟩ | ⟨k, cfg, e0, ht, ho⟩ | ⟨k, cfg, c, t', ht, hpod⟩
  · rw [ht] at htrace
    have hnot := not_failed_of_mem (by simp [Event.failed, Event.failure]) htrace
    rw [hfailed] at hnot
    cases hnot
  · rw [ht] at htrace
    obtain ⟨-, hev, hpost⟩ := @append_cons_unique Event.failed
      [.flagParse (kubeconfigFlag join env) (.value k)] [] pre post _ ev
      (by simp [Event.failed, Event.failure]) (by simp) hfailed htrace
    subst hev
    simp only [Event.failure, errOf_error, Option.some.injEq] at hfail
    subst hfail
    exact ⟨fun _ => ⟨hpost, _, ho, Or.inr (Or.inl rfl)⟩, fun hgp => by cases hgp⟩
  · rw [ht] at htrace
    obtain ⟨-, hev, hpost⟩ := @append_cons_unique Event.failed
      [.flagParse (kubeconfigFlag join env) (.value k), .buildConfigFromFlags "" k (.ok cfg)] []
      pre post _ ev (by simp [Event.failed, Event.failure]) (by simp) hfailed htrace
    subst hev
    simp only [Event.failure, errOf_error, Option.some.injEq] at hfail
    subst hfail
    exact ⟨fun _ => ⟨hpost, _, ho, Or.inr (Or.inl rfl)⟩, fun hgp => by cases hgp⟩
  · rcases hpod with ⟨err, ht', ho⟩ | ⟨pods, got, tail, ht', hrep⟩
    · rw [ht, ht'] at htrace
      obtain ⟨-, hev, hpost⟩ := @append_cons_unique Event.failed
        [.flagParse (kubeconfigFlag join env) (.value k), .buildConfigFromFlags "" k (.ok cfg),
          .newForConfig cfg (.ok c)] [] pre post _ ev
        (by simp [Event.failed, Event.failure]) (by simp) hfailed htrace
      subst hev
      simp only [Event.failure, errOf_error, Option.some.injEq] at hfail
      subst hfail
      exact ⟨fun _ => ⟨hpost, _, ho, Or.inl rfl⟩, fun hgp => by cases hgp⟩
    · have hA : ∀ x ∈ [Event.flagParse (kubeconfigFlag join env) (.value k),
          .buildConfigFromFlags "" k (.ok cfg), .newForConfig cfg (.ok c)] ++
          (.listPods "" (.ok pods) ::
            (pods.map (fun pod =>
              Event.printf "namespace：%s, name: %s, status: %v, startTime: %v\n"
                [.str pod.ObjectMeta.Namespace, .str pod.ObjectMeta.Name,
                 .str pod.Status.Phase, .time pod.Status.StartTime]) ++
             [.printf "Total: %d pods\n" [.int pods.length]])), Event.failed x = false := by
        intro x hx
        simp only [List.cons_append, List.nil_append, List.mem_cons, List.mem_append,
          List.mem_map, List.mem_singleton, List.not_mem_nil, or_false] at hx
        rcases hx with rfl | rfl | rfl | rfl | ⟨pod, -, rfl⟩ | rfl <;> rfl
      have hB : ∀ x ∈ tail, Event.failed x = false := by
        rcases hrep with ⟨-, rfl, -⟩ | ⟨-, st, -, rfl, -⟩ | ⟨text, -, rfl, -⟩ | ⟨pod, -, rfl, -⟩ <;>
          simp [Event.failed, Event.failure]
      have ht2 : (run h (main join env) s).trace =
          ([Event.flagParse (kubeconfigFlag join env) (.value k),
            .buildConfigFromFlags "" k (.ok cfg), .newForConfig cfg (.ok c)] ++
          (.listPods "" (.ok pods) ::
            (pods.map (fun pod =>
              Event.printf "namespace：%s, name: %s, status: %v, startTime: %v\n"
                [.str pod.ObjectMeta.Namespace, .str pod.ObjectMeta.Name,
                 .str pod.Status.Phase, .time pod.Status.StartTime]) ++
             [.printf "Total: %d pods\n" [.int pods.length]]))) ++
          .getPod "kube-system" "kube-apiserver-docker-for-desktop" got :: tail := by
        rw [ht, ht']
        simp
      rw [ht2] at htrace
      obtain ⟨-, hev, hpost⟩ := append_cons_unique hA hB hfailed htrace
      subst hev
      subst hpost
      refine ⟨fun hgp => absurd hgp (by simp [Event.isGetPod]), fun _ => ?_⟩
      rcases hrep with ⟨hnf, rfl, ho⟩ | ⟨hnf, st, rfl, rfl, ho⟩ | ⟨text, rfl, rfl, ho⟩ |
        ⟨pod, rfl, rfl, ho⟩
      · simp only [Event.failure] at hfail
        rw [hfail] at hnf
        refine ⟨fun _ => ⟨rfl, ho⟩, fun hnf' => ?_, fun text he => ?_⟩
        · rw [hnf] at hnf'
          cases hnf'
        · rw [he] at hnf
          simp [IsNotFound, ReasonForError, StatusReasonUnknown, StatusReasonNotFound] at hnf
      · simp only [Event.failure, errOf_error, Option.some.injEq] at hfail
        subst hfail
        refine ⟨fun hnf' => ?_, fun _ st' he => ?_, fun text he => by cases he⟩
        · simp only [errOf_error] at hnf
          rw [hnf] at hnf'
          cases hnf'
        · cases he
          exact ⟨rfl, ho⟩
      · simp only [Event.failure, errOf_error, Option.some.injEq] at hfail
        subst hfail
        refine ⟨fun hnf' => ?_, fun _ st' he => (by cases he), fun text' he => ⟨rfl, ho⟩⟩
        simp [IsNotFound, ReasonForError, StatusReasonUnknown, StatusReasonNotFound] at hnf'
      · simp [Event.failure] at hfail

/-! ## `deployTest` and `svcTest`: the checks hold -/

theorem failureQ_of_none {p : Event} (ev : Event) (hf : p.failure = none) :
    failureQ (some p) ev := by
  intro e he
  rw [hf] at he
  cases he

theorem failureF_of_none {p : Event} (o : Outcome Unit) (hf : p.failure = none) :
    failureF (some p) o := by
  intro e he
  rw [hf] at he
  cases he

theorem failureQ_quiet {prev : Option Event} (ev : Event) (hq : quiet prev = true) :
    failureQ prev ev := by
  cases prev with
  | none => trivial
  | some p =>
    intro e he
    simp [quiet, he] at hq

theorem failureF_quiet {prev : Option Event} (o : Outcome Unit) (hq : quiet prev = true) :
    failureF prev o := by
  cases prev with
  | none => trivial
  | some p =>
    intro e he
    simp [quiet, he] at hq

/-- A failed call that is not a Get of a retry closure, followed by a panic
built from its error. -/
theorem failureF_failed {p : Event} {v : PanicValue} (hv : ∀ e, p.failure = some e → v.carries e) :
    failureF (some p) (.panicked v) :=
  fun e he => ⟨v, rfl, hv e he⟩

theorem deployGetQ_quiet {prev : Option Event} (ev : Event) (hq : quiet prev = true) :
    deployGetQ prev ev := by
  cases prev with
  | none => trivial
  | some p => cases p <;> first | trivial | simp [quiet, Event.isGet] at hq

theorem deployGetF_quiet {prev : Option Event} (o : Outcome Unit) (hq : quiet prev = true) :
    deployGetF prev o := by
  cases prev with
  | none => trivial
  | some p => cases p <;> first | trivial | simp [quiet, Event.isGet] at hq

theorem svcGetQ_quiet {prev : Option Event} (ev : Event) (hq : quiet prev = true) :
    svcGetQ prev ev := by
  cases prev with
  | none => trivial
  | some p => cases p <;> first | trivial | simp [quiet, Event.isGet] at hq

theorem svcGetF_quiet {prev : Option Event} (o : Outcome Unit) (hq : quiet prev = true) :
    svcGetF prev o := by
  cases prev with
  | none => trivial
  | some p => cases p <;> first | trivial | simp [quiet, Event.isGet] at hq

theorem deployUpdateQ_other (prev : Option Event) {ev : Event} (hu : ev.isUpdate = false) :
    deployUpdateQ prev ev := by
  cases ev <;> trivial

theorem deployQ_quiet {prev : Option Event} {ev : Event} (hq : quiet prev = true)
    (hu : ev.isUpdate = false) : deployQ prev ev :=
  ⟨failureQ_quiet ev hq, deployUpdateQ_other prev hu, deployGetQ_quiet ev hq⟩

theorem deployF_quiet {prev : Option Event} (o : Outcome Unit) (hq : quiet prev = true) :
    deployF prev o :=
  ⟨failureF_quiet o hq, deployGetF_quiet o hq⟩

theorem svcQ_quiet {prev : Option Event} (ev : Event) (hq : quiet prev = true) : svcQ prev ev :=
  ⟨failureQ_quiet ev hq, svcGetQ_quiet ev hq⟩

theorem svcF_quiet {prev : Option Event} (o : Outcome Unit) (hq : quiet prev = true) :
    svcF prev o :=
  ⟨failureF_quiet o hq, svcGetF_quiet o hq⟩

theorem failureQ_retryHead {prev : Option Event} {ev : Event} (hh : retryHead prev)
    (hg : ev.isGet = true) : failureQ prev ev := by
  rcases hh with hq | ⟨p, e, rfl, hu, hf, hc⟩
  · exact failureQ_quiet ev hq
  · intro e' he'
    rw [hf] at he'
    cases he'
    exact ⟨hu, hc, hg⟩

theorem deployGetQ_retryHead {prev : Option Event} (ev : Event) (hh : retryHead prev) :
    deployGetQ prev ev := by
  rcases hh with hq | ⟨p, e, rfl, hu, hf, hc⟩
  · exact deployGetQ_quiet ev hq
  · cases p <;> trivial

theorem svcGetQ_retryHead {prev : Option Event} (ev : Event) (hh : retryHead prev) :
    svcGetQ prev ev := by
  rcases hh with hq | ⟨p, e, rfl, hu, hf, hc⟩
  · exact svcGetQ_quiet ev hq
  · cases p <;> trivial

/-- Every execution of `deployTest` passes the check `deployQ`, `deployF`. -/
theorem deployTest_local (cs : Clientset) :
    (deployTest cs).all (monitored deployQ deployF none) := by
  simp only [deployTest, bind_eq, pure_eq, println, printf, call, Prog.bind_step,
    Prog.bind_done]
  rw [monitored_step]
  intro _
  refine ⟨deployQ_quiet rfl rfl, ?_⟩
  rw [monitored_step]
  intro created
  refine ⟨deployQ_quiet rfl rfl, ?_⟩
  cases created with
  | error err =>
    exact ⟨failureF_failed (by simp [Event.failure, PanicValue.carries]), trivial⟩
  | ok result =>
    simp only []
    rw [monitored_step]
    intro _
    refine ⟨deployQ_quiet rfl rfl, ?_⟩
    refine prompt_monitored _ _ _ _ (deployQ_quiet rfl rfl) (fun _ => deployQ_quiet rfl rfl)
      (fun e => ⟨failureF_failed (by simp [Event.failure, PanicValue.carries]), trivial⟩)
      (deployQ_quiet rfl rfl) ?_
    rw [monitored_step]
    intro _
    refine ⟨deployQ_quiet rfl rfl, ?_⟩
    refine retryLoop_monitored deployQ deployF deployTest.update _ retryHead ?_ 5 _ none
      (Or.inl rfl) (fun h5 => absurd h5 (by decide))
    intro prev hh
    simp only [deployTest.update, bind_eq, pure_eq, call, Prog.bind_step, Prog.bind_done]
    rw [monitored_step]
    intro got
    refine ⟨⟨failureQ_retryHead hh rfl, trivial, deployGetQ_retryHead _ hh⟩, ?_⟩
    cases got with
    | error getErr =>
      exact ⟨failureF_failed (by simp [Event.failure, PanicValue.carries]), trivial⟩
    | ok d =>
      simp only []
      cases hc : d.Spec.Template.Spec.Containers with
      | nil =>
        exact ⟨failureF_of_none _ rfl, hc, rfl⟩
      | cons c cs =>
        simp only []
        rw [monitored_step]
        intro updated
        refine ⟨⟨failureQ_of_none _ rfl, ⟨d, c, cs, rfl, hc, rfl, rfl⟩, ⟨c, cs, updated, hc, rfl⟩⟩, ?_⟩
        cases updated with
        | ok obj =>
          simp only [monitored_done, errOf_ok]
          rw [monitored_step]
          intro _
          refine ⟨deployQ_quiet rfl rfl, ?_⟩
          refine prompt_monitored _ _ _ _ (deployQ_quiet rfl rfl) (fun _ => deployQ_quiet rfl rfl)
            (fun e => ⟨failureF_failed (by simp [Event.failure, PanicValue.carries]), trivial⟩)
            (deployQ_quiet rfl rfl) ?_
          rw [monitored_step]
          intro _
          refine ⟨deployQ_quiet rfl rfl, ?_⟩
          rw [monitored_step]
          intro list
          refine ⟨deployQ_quiet rfl rfl, ?_⟩
          cases list with
          | error err =>
            exact ⟨failureF_failed (by simp [Event.failure, PanicValue.carries]), trivial⟩
          | ok list =>
            refine forEach_monitored deployQ deployF _ _ (fun prev => quiet prev = true) ?_ ?_ list _ rfl
            · intro d prev hq
              cases hr : d.Spec.Replicas with
              | none => exact deployF_quiet _ hq
              | some replicas =>
                simp only [printf, call]
                rw [monitored_step]
                intro _
                exact ⟨deployQ_quiet hq rfl, rfl⟩
            · intro prev hq
              refine prompt_monitored _ _ _ _ (deployQ_quiet hq rfl) (fun _ => deployQ_quiet rfl rfl)
                (fun e => ⟨failureF_failed (by simp [Event.failure, PanicValue.carries]), trivial⟩)
                (deployQ_quiet rfl rfl) ?_
              rw [monitored_step]
              intro _
              refine ⟨deployQ_quiet rfl rfl, ?_⟩
              rw [monitored_step]
              intro err
              refine ⟨deployQ_quiet rfl rfl, ?_⟩
              cases err with
              | some err =>
                exact ⟨failureF_failed (by simp [Event.failure, PanicValue.carries]), trivial⟩
              | none =>
                rw [monitored_step]
                intro _
                exact ⟨deployQ_quiet rfl rfl, deployF_quiet _ rfl⟩
        | error e =>
          simp only [monitored_done, errOf_error]
          refine ⟨fun hconf => Or.inr ⟨_, e, rfl, rfl, rfl, hconf⟩, ?_⟩
          exact ⟨failureF_failed (by simp [Event.failure, PanicValue.carries]), trivial⟩

/-- Every execution of `svcTest` passes the check `svcQ`, `svcF`. -/
theorem svcTest_local (cs : Clientset) :
    (svcTest cs).all (monitored svcQ svcF none) := by
  simp only [svcTest, bind_eq, pure_eq, println, printf, call, Prog.bind_step,
    Prog.bind_done]
  rw [monitored_step]
  intro data
  refine ⟨svcQ_quiet _ rfl, ?_⟩
  cases data with
  | error err =>
    exact ⟨failureF_failed (by simp [Event.failure, PanicValue.carries]), trivial⟩
  | ok data =>
  simp only []
  rw [monitored_step]
  intro decoded
  refine ⟨svcQ_quiet _ rfl, ?_⟩
  cases decoded with
  | error err =>
    exact ⟨failureF_failed (by simp [Event.failure, PanicValue.carries]), trivial⟩
  | ok deployment =>
  simp only []
  rw [monitored_step]
  intro _
  refine ⟨svcQ_quiet _ rfl, ?_⟩
  rw [monitored_step]
  intro created
  refine ⟨svcQ_quiet _ rfl, ?_⟩
  cases created with
  | error err =>
    exact ⟨failureF_failed (by simp [Event.failure, PanicValue.carries]), trivial⟩
  | ok result =>
  simp only []
  rw [monitored_step]
  intro _
  refine ⟨svcQ_quiet _ rfl, ?_⟩
  refine prompt_monitored _ _ _ _ (svcQ_quiet _ rfl) (fun _ => svcQ_quiet _ rfl)
    (fun e => ⟨failureF_failed (by simp [Event.failure, PanicValue.carries]), trivial⟩)
    (svcQ_quiet _ rfl) ?_
  rw [monitored_step]
  intro data
  refine ⟨svcQ_quiet _ rfl, ?_⟩
  cases data with
  | error err =>
    exact ⟨failureF_failed (by simp [Event.failure, PanicValue.carries]), trivial⟩
  | ok data =>
  simp only []
  rw [monitored_step]
  intro decoded
  refine ⟨svcQ_quiet _ rfl, ?_⟩
  cases decoded with
  | error err =>
    exact ⟨failureF_failed (by simp [Event.failure, PanicValue.carries]), trivial⟩
  | ok service =>
  simp only []
  rw [monitored_step]
  intro _
  refine ⟨svcQ_quiet _ rfl, ?_⟩
  rw [monitored_step]
  intro created
  refine ⟨svcQ_quiet _ rfl, ?_⟩
  cases created with
  | error err =>
    exact ⟨failureF_failed (by simp [Event.failure, PanicValue.carries]), trivial⟩
  | ok resultSvc =>
  simp only []
  rw [monitored_step]
  intro _
  refine ⟨svcQ_quiet _ rfl, ?_⟩
  refine prompt_monitored _ _ _ _ (svcQ_quiet _ rfl) (fun _ => svcQ_quiet _ rfl)
    (fun e => ⟨failureF_failed (by simp [Event.failure, PanicValue.carries]), trivial⟩)
    (svcQ_quiet _ rfl) ?_
  rw [monitored_step]
  intro _
  refine ⟨svcQ_quiet _ rfl, ?_⟩
  refine retryLoop_monitored svcQ svcF (svcTest.update service) _ retryHead ?_ 5 _ none
    (Or.inl rfl) (fun h5 => absurd h5 (by decide))
  intro prev hh
  simp only [svcTest.update, bind_eq, pure_eq, call, Prog.bind_step, Prog.bind_done]
  rw [monitored_step]
  intro got
  refine ⟨⟨failureQ_retryHead hh rfl, svcGetQ_retryHead _ hh⟩, ?_⟩
  cases got with
  | error getErr =>
    exact ⟨failureF_failed (by simp [Event.failure, PanicValue.carries]), trivial⟩
  | ok svc =>
    simp only []
    cases hp : svc.Spec.Ports with
    | nil => exact ⟨failureF_of_none _ rfl, hp, rfl⟩
    | cons p ps =>
      simp only []
      rw [monitored_step]
      intro updated
      refine ⟨⟨failureQ_of_none _ rfl, ⟨p, ps, updated, hp, rfl⟩⟩, ?_⟩
      cases updated with
      | error e =>
        simp only [monitored_done, errOf_error]
        refine ⟨fun hconf => Or.inr ⟨_, e, rfl, rfl, rfl, hconf⟩, ?_⟩
        exact ⟨failureF_failed (by simp [Event.failure, PanicValue.carries]), trivial⟩
      | ok obj =>
        simp only [monitored_done, errOf_ok]
        rw [monitored_step]
        intro _
        refine ⟨svcQ_quiet _ rfl, ?_⟩
        refine prompt_monitored _ _ _ _ (svcQ_quiet _ rfl) (fun _ => svcQ_quiet _ rfl)
          (fun e => ⟨failureF_failed (by simp [Event.failure, PanicValue.carries]), trivial⟩)
          (svcQ_quiet _ rfl) ?_
        rw [monitored_step]
        intro _
        refine ⟨svcQ_quiet _ rfl, ?_⟩
        rw [monitored_step]
        intro err
        refine ⟨svcQ_quiet _ rfl, ?_⟩
        cases err with
        | some err =>
          exact ⟨failureF_failed (by simp [Event.failure, PanicValue.carries]), trivial⟩
        | none =>
          simp only []
          rw [monitored_step]
          intro _
          refine ⟨svcQ_quiet _ rfl, ?_⟩
          refine prompt_monitored _ _ _ _ (svcQ_quiet _ rfl) (fun _ => svcQ_quiet _ rfl)
            (fun e => ⟨failureF_failed (by simp [Event.failure, PanicValue.carries]), trivial⟩)
            (svcQ_quiet _ rfl) ?_
          rw [monitored_step]
          intro _
          refine ⟨svcQ_quiet _ rfl, ?_⟩
          rw [monitored_step]
          intro err
          refine ⟨svcQ_quiet _ rfl, ?_⟩
          cases err with
          | some err =>
            exact ⟨failureF_failed (by simp [Event.failure, PanicValue.carries]), trivial⟩
          | none =>
            simp only []
            rw [monitored_step]
            intro _
            exact ⟨svcQ_quiet _ rfl, svcF_quiet _ rfl⟩

/-- Every execution of the closure of `deployTest`. -/
theorem deployTest_update_shape : deployTest.update.all (fun t o =>
    (∃ e, t = [.getDeployment NamespaceDefault "demo-deployment" (.error e)] ∧
      o = .panicked (.errorf "Failed to get latest version of Deployment: %v" e)) ∨
    (∃ d, t = [.getDeployment NamespaceDefault "demo-deployment" (.ok d)] ∧
      d.Spec.Template.Spec.Containers = [] ∧ o = .panicked (.indexOutOfRange 0 0)) ∨
    (∃ d c cs res, t = [.getDeployment NamespaceDefault "demo-deployment" (.ok d),
        .updateDeployment NamespaceDefault (updatedDeployment d c cs) res] ∧
      d.Spec.Template.Spec.Containers = c :: cs ∧ o = .returned (errOf res))) := by
  simp only [deployTest.update, bind_eq, pure_eq, call, Prog.bind_step, Prog.bind_done, Prog.all,
    Event.of]
  intro got
  cases got with
  | error e => exact Or.inl ⟨e, rfl, rfl⟩
  | ok d =>
    simp only []
    cases hc : d.Spec.Template.Spec.Containers with
    | nil => exact Or.inr (Or.inl ⟨d, rfl, hc, rfl⟩)
    | cons c cs =>
      simp only [Prog.all, Event.of]
      intro res
      exact Or.inr (Or.inr ⟨d, c, cs, res, rfl, hc, rfl⟩)

/-! ## `deployTest` and `svcTest`: updates, failures, the run without failure -/

/-- C2: in every run of `deployTest`, each Update comes right after the Get
of `demo-deployment` of the same attempt, that Get succeeded, and the object
submitted is the fetched Deployment with the replica count set to 1 and the
image of the first container set to `nginx:1.13`, every other field as
fetched (so the resource version, the other containers and the other fields
of the first container too).  In every run of the closure itself, an Update
is the last event and the closure returns exactly the error of that call. -/
theorem deployTest_update_object (cs : Clientset) :
    (∀ (σ : Type) (h : (r : Req) → σ → Resp r × σ) (s : σ) (pre post : List Event)
        (ns : String) (obj : Deployment) (res : Except GoError Deployment),
      (run h (deployTest cs) s).trace = pre ++ .updateDeployment ns obj res :: post →
      ∃ pre' d c rest,
        pre = pre' ++ [.getDeployment NamespaceDefault "demo-deployment" (.ok d)] ∧
        d.Spec.Template.Spec.Containers = c :: rest ∧ ns = NamespaceDefault ∧
        obj = { d with Spec := { d.Spec with
          Replicas := some 1
          Template := { d.Spec.Template with Spec := { d.Spec.Template.Spec with
            Containers := { c with Image := "nginx:1.13" } :: rest } } } } ∧
        obj.ObjectMeta.ResourceVersion = d.ObjectMeta.ResourceVersion) ∧
    (∀ (σ : Type) (h : (r : Req) → σ → Resp r × σ) (s : σ) (pre post : List Event)
        (ns : String) (obj : Deployment) (res : Except GoError Deployment),
      (run h deployTest.update s).trace = pre ++ .updateDeployment ns obj res :: post →
      post = [] ∧ (run h deployTest.update s).outcome = .returned (errOf res)) := by
  constructor
  · intro σ h s pre post ns obj res htrace
    have hm := run_all h (deployTest cs) _ (deployTest_local cs) s
    rcases monitored_before hm htrace with ⟨-, hq⟩ | ⟨pre', a, hpre, hq⟩
    · obtain ⟨d, c, rest, hprev, -⟩ := hq.2.1
      cases hprev
    · obtain ⟨d, c, rest, hprev, hc, hns, hobj⟩ := hq.2.1
      cases hprev
      exact ⟨pre', d, c, rest, hpre, hc, hns, hobj, by rw [hobj]; rfl⟩
  · intro σ h s pre post ns obj res htrace
    rcases run_all h deployTest.update _ deployTest_update_shape s with
      ⟨e, ht, -⟩ | ⟨d, ht, -, -⟩ | ⟨d, c, rest, res', ht, -, ho⟩
    · rw [ht] at htrace
      have hmem : Event.updateDeployment ns obj res ∈
          [Event.getDeployment NamespaceDefault "demo-deployment" (.error e)] := by
        rw [htrace]; simp
      simp at hmem
    · rw [ht] at htrace
      have hmem : Event.updateDeployment ns obj res ∈
          [Event.getDeployment NamespaceDefault "demo-deployment" (.ok d)] := by
        rw [htrace]; simp
      simp at hmem
    · rw [ht] at htrace
      have huniq := @append_cons_unique Event.isUpdate
        [Event.getDeployment NamespaceDefault "demo-deployment" (.ok d)] [] pre post _ _
        (by simp [Event.isUpdate]) (by simp) (by rfl) htrace
      obtain ⟨-, hg, hpost⟩ := huniq
      simp only [Event.updateDeployment.injEq] at hg
      obtain ⟨-, -, rfl⟩ := hg
      exact ⟨hpost, ho⟩

theorem deployTest_update_object_witness :
    ((run healthyHandler (deployTest sampleClientset) 0).trace =
        (run healthyHandler (deployTest sampleClientset) 0).trace.take 8 ++
          .updateDeployment NamespaceDefault (updatedDeployment demoDeployment
            ⟨"web", "nginx:1.12", [⟨"http", ProtocolTCP, 80, []⟩], []⟩ []) 
            (.ok (updatedDeployment demoDeployment
              ⟨"web", "nginx:1.12", [⟨"http", ProtocolTCP, 80, []⟩], []⟩ [])) ::
          (run healthyHandler (deployTest sampleClientset) 0).trace.drop 9 ∧
      ∃ pre' d c rest,
        (run healthyHandler (deployTest sampleClientset) 0).trace.take 8 =
          pre' ++ [.getDeployment NamespaceDefault "demo-deployment" (.ok d)] ∧
        d.Spec.Template.Spec.Containers = c :: rest ∧ NamespaceDefault = NamespaceDefault ∧
        updatedDeployment demoDeployment
            ⟨"web", "nginx:1.12", [⟨"http", ProtocolTCP, 80, []⟩], []⟩ [] =
          { d with Spec := { d.Spec with
            Replicas := some 1
            Template := { d.Spec.Template with Spec := { d.Spec.Template.Spec with
              Containers := { c with Image := "nginx:1.13" } :: rest } } } } ∧
        (updatedDeployment demoDeployment
            ⟨"web", "nginx:1.12", [⟨"http", ProtocolTCP, 80, []⟩], []⟩ []).ObjectMeta.ResourceVersion =
          d.ObjectMeta.ResourceVersion) ∧
    ((run healthyHandler deployTest.update 0).trace =
        [.getDeployment NamespaceDefault "demo-deployment" (.ok demoDeployment)] ++
          .updateDeployment NamespaceDefault (updatedDeployment demoDeployment
            ⟨"web", "nginx:1.12", [⟨"http", ProtocolTCP, 80, []⟩], []⟩ [])
            (.ok (updatedDeployment demoDeployment
              ⟨"web", "nginx:1.12", [⟨"http", ProtocolTCP, 80, []⟩], []⟩ [])) :: [] ∧
      ([] : List Event) = [] ∧
      (run healthyHandler deployTest.update 0).outcome = .returned none) :=
  ⟨⟨rfl, (deployTest_update_object sampleClientset).1 Nat healthyHandler 0
      ((run healthyHandler (deployTest sampleClientset) 0).trace.take 8)
      ((run healthyHandler (deployTest sampleClientset) 0).trace.drop 9)
      NamespaceDefault _ (.ok (updatedDeployment demoDeployment
        ⟨"web", "nginx:1.12", [⟨"http", ProtocolTCP, 80, []⟩], []⟩ [])) rfl⟩,
   ⟨rfl, (deployTest_update_object sampleClientset).2 Nat healthyHandler 0
      [.getDeployment NamespaceDefault "demo-deployment" (.ok demoDeployment)] []
      NamespaceDefault _ (.ok (updatedDeployment demoDeployment
        ⟨"web", "nginx:1.12", [⟨"http", ProtocolTCP, 80, []⟩], []⟩ [])) rfl⟩⟩

/-- C10: wherever a run of `svcTest` has a successful Get of a Service: when
the fetched Service has a first port, the next event is the Update of the
fetched Service with the node port of that first port set to 30000, every
other port and field as fetched; when it has no port, the Get is the last
event of the run (no Update follows) and the process panics on the index.
The same holds in `deployTest` for the fetched Deployment and its first
container. -/
theorem update_needs_first_element (cs : Clientset) :
    (∀ (σ : Type) (h : (r : Req) → σ → Resp r × σ) (s : σ) (pre post : List Event)
        (ns name : String) (svc : Service),
      (run h (svcTest cs) s).trace = pre ++ .getService ns name (.ok svc) :: post →
      (∀ p ps, svc.Spec.Ports = p :: ps →
        ∃ res post', post = .updateService NamespaceDefault
          { svc with Spec := { svc.Spec with Ports := { p with NodePort := 30000 } :: ps } }
          res :: post') ∧
      (svc.Spec.Ports = [] →
        post = [] ∧ (run h (svcTest cs) s).outcome = .panicked (.indexOutOfRange 0 0))) ∧
    (∀ (σ : Type) (h : (r : Req) → σ → Resp r × σ) (s : σ) (pre post : List Event)
        (ns name : String) (d : Deployment),
      (run h (deployTest cs) s).trace = pre ++ .getDeployment ns name (.ok d) :: post →
      (∀ c rest, d.Spec.Template.Spec.Containers = c :: rest →
        ∃ res post', post = .updateDeployment NamespaceDefault
          { d with Spec := { d.Spec with
            Replicas := some 1
            Template := { d.Spec.Template with Spec := { d.Spec.Template.Spec with
              Containers := { c with Image := "nginx:1.13" } :: rest } } } }
          res :: post') ∧
      (d.Spec.Template.Spec.Containers = [] →
        post = [] ∧ (run h (deployTest cs) s).outcome = .panicked (.indexOutOfRange 0 0))) := by
  constructor
  · intro σ h s pre post ns name svc htrace
    have hm := run_all h (svcTest cs) _ (svcTest_local cs) s
    rcases monitored_after hm htrace with ⟨hpost, hF⟩ | ⟨b, post', hpost, hQ⟩
    · obtain ⟨hports, ho⟩ := hF.2
      refine ⟨fun p ps hp => ?_, fun _ => ⟨hpost, ho⟩⟩
      rw [hports] at hp
      cases hp
    · obtain ⟨p, ps, res, hports, hb⟩ := hQ.2
      refine ⟨fun p' ps' hp => ?_, fun hnil => ?_⟩
      · rw [hports] at hp
        cases hp
        exact ⟨res, post', by rw [hpost, hb]; rfl⟩
      · rw [hports] at hnil
        cases hnil
  · intro σ h s pre post ns name d htrace
    have hm := run_all h (deployTest cs) _ (deployTest_local cs) s
    rcases monitored_after hm htrace with ⟨hpost, hF⟩ | ⟨b, post', hpost, hQ⟩
    · obtain ⟨hcont, ho⟩ := hF.2
      refine ⟨fun c rest hc => ?_, fun _ => ⟨hpost, ho⟩⟩
      rw [hcont] at hc
      cases hc
    · obtain ⟨c, rest, res, hcont, hb⟩ := hQ.2.2
      refine ⟨fun c' rest' hc => ?_, fun hnil => ?_⟩
      · rw [hcont] at hc
        cases hc
        exact ⟨res, post', by rw [hpost, hb]; rfl⟩
      · rw [hcont] at hnil
        cases hnil

theorem update_needs_first_element_witness :
    ((run healthyHandler (svcTest sampleClientset) 0).trace =
        (run healthyHandler (svcTest sampleClientset) 0).trace.take 17 ++
          .getService NamespaceDefault "demo-service" (.ok sampleService) ::
          (run healthyHandler (svcTest sampleClientset) 0).trace.drop 18 ∧
      sampleService.Spec.Ports = [⟨"http", ProtocolTCP, 80, "80", 0⟩] ∧
      ∃ res post', (run healthyHandler (svcTest sampleClientset) 0).trace.drop 18 =
        .updateService NamespaceDefault
          { sampleService with Spec := { sampleService.Spec with
            Ports := [⟨"http", ProtocolTCP, 80, "80", 30000⟩] } } res :: post') ∧
    ((run (getServiceGives portlessService) (svcTest sampleClientset) 0).trace =
        (run (getServiceGives portlessService) (svcTest sampleClientset) 0).trace.take 17 ++
          .getService NamespaceDefault "demo-service" (.ok portlessService) :: [] ∧
      portlessService.Spec.Ports = [] ∧
      ([] : List Event) = [] ∧
      (run (getServiceGives portlessService) (svcTest sampleClientset) 0).outcome =
        .panicked (.indexOutOfRange 0 0)) ∧
    ((run healthyHandler (deployTest sampleClientset) 0).trace =
        (run healthyHandler (deployTest sampleClientset) 0).trace.take 7 ++
          .getDeployment NamespaceDefault "demo-deployment" (.ok demoDeployment) ::
          (run healthyHandler (deployTest sampleClientset) 0).trace.drop 8 ∧
      demoDeployment.Spec.Template.Spec.Containers =
        [⟨"web", "nginx:1.12", [⟨"http", ProtocolTCP, 80, []⟩], []⟩] ∧
      ∃ res post', (run healthyHandler (deployTest sampleClientset) 0).trace.drop 8 =
        .updateDeployment NamespaceDefault
          { demoDeployment with Spec := { demoDeployment.Spec with
            Replicas := some 1
            Template := { demoDeployment.Spec.Template with
              Spec := { demoDeployment.Spec.Template.Spec with
                Containers := [⟨"web", "nginx:1.13", [⟨"http", ProtocolTCP, 80, []⟩], []⟩] } } } }
          res :: post') :=
  ⟨⟨rfl, rfl, ((update_needs_first_element sampleClientset).1 Nat healthyHandler 0
      ((run healthyHandler (svcTest sampleClientset) 0).trace.take 17)
      ((run healthyHandler (svcTest sampleClientset) 0).trace.drop 18)
      NamespaceDefault "demo-service" sampleService rfl).1 _ _ rfl⟩,
   ⟨rfl, rfl, ((update_needs_first_element sampleClientset).1 Nat
      (getServiceGives portlessService) 0
      ((run (getServiceGives portlessService) (svcTest sampleClientset) 0).trace.take 17) []
      NamespaceDefault "demo-service" portlessService rfl).2 rfl⟩,
   ⟨rfl, rfl, ((update_needs_first_element sampleClientset).2 Nat healthyHandler 0
      ((run healthyHandler (deployTest sampleClientset) 0).trace.take 7)
      ((run healthyHandler (deployTest sampleClientset) 0).trace.drop 8)
      NamespaceDefault "demo-deployment" demoDeployment rfl).1 _ _ rfl⟩⟩

/-- C7 (as amended): in every run of `deployTest` and of `svcTest`, a step
that fails (a file read, a decode, a read of standard input, a create, get,
update, list or delete) is the last event of the run, and the process ends
there in a panic built from the error, so that no call at all, and no delete,
is issued after it; the one exception is an Update rejected with a conflict,
which may instead be followed by the Get of the next attempt of the retry
helper. -/
theorem failed_step_aborts (cs : Clientset) (P : Prog Unit)
    (hP : P = deployTest cs ∨ P = svcTest cs) {σ : Type} (h : (r : Req) → σ → Resp r × σ)
    (s : σ) (pre post : List Event) (ev : Event) (e : GoError)
    (htrace : (run h P s).trace = pre ++ ev :: post) (hfail : ev.failure = some e) :
    (post = [] ∧ ∃ v, (run h P s).outcome = .panicked v ∧ v.carries e) ∨
    (ev.isUpdate = true ∧ IsConflict e = true ∧
      ∃ g post', post = g :: post' ∧ g.isGet = true) := by
  have hfq : (post = [] ∧ failureF (some ev) (run h P s).outcome) ∨
      ∃ b post', post = b :: post' ∧ failureQ (some ev) b := by
    rcases hP with rfl | rfl
    · have hm := run_all h (deployTest cs) _ (deployTest_local cs) s
      rcases monitored_after hm htrace with ⟨hpost, hF⟩ | ⟨b, post', hpost, hQ⟩
      · exact Or.inl ⟨hpost, hF.1⟩
      · exact Or.inr ⟨b, post', hpost, hQ.1⟩
    · have hm := run_all h (svcTest cs) _ (svcTest_local cs) s
      rcases monitored_after hm htrace with ⟨hpost, hF⟩ | ⟨b, post', hpost, hQ⟩
      · exact Or.inl ⟨hpost, hF.1⟩
      · exact Or.inr ⟨b, post', hpost, hQ.1⟩
  rcases hfq with ⟨hpost, hF⟩ | ⟨b, post', hpost, hQ⟩
  · exact Or.inl ⟨hpost, hF e hfail⟩
  · obtain ⟨hu, hc, hg⟩ := hQ e hfail
    exact Or.inr ⟨hu, hc, b, post', hpost, hg⟩

theorem failed_step_aborts_witness :
    ((run (conflictsFirst 5) (deployTest sampleClientset) 0).trace =
        (run (conflictsFirst 5) (deployTest sampleClientset) 0).trace.take 16 ++
          .updateDeployment NamespaceDefault (updatedDeployment demoDeployment
            ⟨"web", "nginx:1.12", [⟨"http", ProtocolTCP, 80, []⟩], []⟩ [])
            (.error conflictErr) :: [] ∧
      (Event.updateDeployment NamespaceDefault (updatedDeployment demoDeployment
            ⟨"web", "nginx:1.12", [⟨"http", ProtocolTCP, 80, []⟩], []⟩ [])
            (.error conflictErr)).failure = some conflictErr) ∧
    ((([] : List Event) = [] ∧
        ∃ v, (run (conflictsFirst 5) (deployTest sampleClientset) 0).outcome = .panicked v ∧
          v.carries conflictErr) ∨
      ((Event.updateDeployment NamespaceDefault (updatedDeployment demoDeployment
            ⟨"web", "nginx:1.12", [⟨"http", ProtocolTCP, 80, []⟩], []⟩ [])
            (.error conflictErr)).isUpdate = true ∧ IsConflict conflictErr = true ∧
        ∃ g post', ([] : List Event) = g :: post' ∧ g.isGet = true)) :=
  ⟨⟨rfl, rfl⟩,
   failed_step_aborts sampleClientset (deployTest sampleClientset) (Or.inl rfl)
     (conflictsFirst 5) 0
     ((run (conflictsFirst 5) (deployTest sampleClientset) 0).trace.take 16) []
     (.updateDeployment NamespaceDefault (updatedDeployment demoDeployment
        ⟨"web", "nginx:1.12", [⟨"http", ProtocolTCP, 80, []⟩], []⟩ []) (.error conflictErr))
     conflictErr rfl rfl⟩

/-- C7 (as stated) fails: in this run of `deployTest` the first Update, made
after the Deployment was created, fails (with a conflict), yet the process
does not abort: the helper retries, the run goes on to delete the Deployment
and returns.  So it is not the case that every failed step of this run ends
the run in a panic. -/
theorem failed_step_aborts_counterexample :
    (run (conflictsFirst 1) (deployTest sampleClientset) 0).trace.filter Event.isMutating =
      [.createDeployment NamespaceDefault demoDeployment (.ok demoDeployment),
       .updateDeployment NamespaceDefault (updatedDeployment demoDeployment
          ⟨"web", "nginx:1.12", [⟨"http", ProtocolTCP, 80, []⟩], []⟩ []) (.error conflictErr),
       .updateDeployment NamespaceDefault (updatedDeployment demoDeployment
          ⟨"web", "nginx:1.12", [⟨"http", ProtocolTCP, 80, []⟩], []⟩ [])
          (.ok (updatedDeployment demoDeployment
            ⟨"web", "nginx:1.12", [⟨"http", ProtocolTCP, 80, []⟩], []⟩ [])),
       .deleteDeployment NamespaceDefault "demo-deployment"
          ⟨some DeletePropagationForeground⟩ none] ∧
    (run (conflictsFirst 1) (deployTest sampleClientset) 0).outcome = .returned () ∧
    ¬ (∀ (pre post : List Event) (ev : Event) (e : GoError),
        (run (conflictsFirst 1) (deployTest sampleClientset) 0).trace = pre ++ ev :: post →
        ev.failure = some e →
        post = [] ∧ ∃ v, (run (conflictsFirst 1) (deployTest sampleClientset) 0).outcome =
          .panicked v) := by
  refine ⟨rfl, rfl, ?_⟩
  intro hall
  obtain ⟨-, v, hv⟩ := hall
    ((run (conflictsFirst 1) (deployTest sampleClientset) 0).trace.take 8)
    ((run (conflictsFirst 1) (deployTest sampleClientset) 0).trace.drop 9)
    (.updateDeployment NamespaceDefault (updatedDeployment demoDeployment
      ⟨"web", "nginx:1.12", [⟨"http", ProtocolTCP, 80, []⟩], []⟩ []) (.error conflictErr))
    conflictErr rfl rfl
  have hret : (run (conflictsFirst 1) (deployTest sampleClientset) 0).outcome = .returned () :=
    rfl
  rw [hret] at hv
  cases hv

/-- C1 (as amended): every error that a call into the cluster client returns
is handled as follows.  In `main` as shipped: an error from config loading,
from client construction or from the List of pods ends the run there in a
panic built from the error, whatever its kind; for the single-pod Get, a
not-found error prints the not-found message and the function returns, any
other API status error prints the `Error getting pod` message and the
function returns, and any other error ends the run in a panic.  In
`deployTest` and `svcTest`: a failed create, get, list or delete, and a failed
Update, ends the run there in a panic built from the error, except that an
Update rejected with a conflict may instead be followed by the Get of the next
attempt of the retry helper.  In `startWatch` the error of the Watch call is
discarded: the goroutine depends on the watcher alone. -/
theorem client_errors_handled (join : List String → String) (env : String → String)
    (cs : Clientset) :
    (∀ (σ : Type) (h : (r : Req) → σ → Resp r × σ) (s : σ) (pre post : List Event)
        (ev : Event) (e : GoError),
      (run h (main join env) s).trace = pre ++ ev :: post →
      ev.isClientCall = true → ev.failure = some e →
      (ev.isGetPod = false →
        post = [] ∧ ∃ v, (run h (main join env) s).outcome = .panicked v ∧ v.carries e) ∧
      (ev.isGetPod = true →
        (IsNotFound (some e) = true →
          post = [.printf "Pod %q in namespace %q not found\n"
            [.str "kube-apiserver-docker-for-desktop", .str "kube-system"]] ∧
          (run h (main join env) s).outcome = .returned ()) ∧
        (IsNotFound (some e) = false → ∀ st, e = .statusError st →
          post = [.printf "Error getting pod %q in namespace %q: %v\n"
            [.str "kube-apiserver-docker-for-desktop", .str "kube-system", .str st.Message]] ∧
          (run h (main join env) s).outcome = .returned ()) ∧
        (∀ text, e = .other text →
          post = [] ∧ (run h (main join env) s).outcome = .panicked (.errorText e)))) ∧
    (∀ (P : Prog Unit), P = deployTest cs ∨ P = svcTest cs →
      ∀ (σ : Type) (h : (r : Req) → σ → Resp r × σ) (s : σ) (pre post : List Event)
        (ev : Event) (e : GoError),
      (run h P s).trace = pre ++ ev :: post →
      ev.isClientCall = true → ev.failure = some e →
      (post = [] ∧ ∃ v, (run h P s).outcome = .panicked v ∧ v.carries e) ∨
      (ev.isUpdate = true ∧ IsConflict e = true ∧
        ∃ g post', post = g :: post' ∧ g.isGet = true)) ∧
    (∀ (w : Option Watcher) (e1 e2 : Option GoError) (fuel : Nat),
      watchGoroutine (w, e1) fuel = watchGoroutine (w, e2) fuel) := by
  refine ⟨?_, ?_, fun _ _ _ _ => rfl⟩
  · intro σ h s pre post ev e htrace _ hfail
    exact main_client_error join env h s pre post ev e htrace hfail
  · intro P hP σ h s pre post ev e htrace _ hfail
    have hlocal : monitored failureQ failureF none (run h P s).trace (run h P s).outcome := by
      rcases hP with rfl | rfl
      · exact monitored_mono (fun _ _ hq => hq.1) (fun _ _ hf => hf.1) _ _ _
          (run_all h (deployTest cs) _ (deployTest_local cs) s)
      · exact monitored_mono (fun _ _ hq => hq.1) (fun _ _ hf => hf.1) _ _ _
          (run_all h (svcTest cs) _ (svcTest_local cs) s)
    rcases monitored_after hlocal htrace with ⟨hpost, hF⟩ | ⟨b, post', hpost, hQ⟩
    · exact Or.inl ⟨hpost, hF e hfail⟩
    · obtain ⟨hu, hc, hg⟩ := hQ e hfail
      exact Or.inr ⟨hu, hc, b, post', hpost, hg⟩

theorem client_errors_handled_witness :
    ((run (podFailures none (some forbiddenErr)) (main sampleJoin sampleEnv) 0).trace =
        (run (podFailures none (some forbiddenErr)) (main sampleJoin sampleEnv) 0).trace.take 7 ++
          .getPod "kube-system" "kube-apiserver-docker-for-desktop" (.error forbiddenErr) ::
          [.printf "Error getting pod %q in namespace %q: %v\n"
            [.str "kube-apiserver-docker-for-desktop", .str "kube-system",
             .str "pods is forbidden"]] ∧
      IsNotFound (some forbiddenErr) = false ∧
      ([Event.printf "Error getting pod %q in namespace %q: %v\n"
            [.str "kube-apiserver-docker-for-desktop", .str "kube-system",
             .str "pods is forbidden"]] =
          [.printf "Error getting pod %q in namespace %q: %v\n"
            [.str "kube-apiserver-docker-for-desktop", .str "kube-system",
             .str "pods is forbidden"]] ∧
        (run (podFailures none (some forbiddenErr)) (main sampleJoin sampleEnv) 0).outcome =
          .returned ())) ∧
    ((run (podFailures (some notFoundErr) none) (main sampleJoin sampleEnv) 0).trace =
        (run (podFailures (some notFoundErr) none) (main sampleJoin sampleEnv) 0).trace.take 3 ++
          .listPods "" (.error notFoundErr) :: [] ∧
      ([] : List Event) = [] ∧
      ∃ v, (run (podFailures (some notFoundErr) none) (main sampleJoin sampleEnv) 0).outcome =
        .panicked v ∧ v.carries notFoundErr) :=
  ⟨⟨rfl, by decide,
    ((client_errors_handled sampleJoin sampleEnv sampleClientset).1 Nat
      (podFailures none (some forbiddenErr)) 0
      ((run (podFailures none (some forbiddenErr)) (main sampleJoin sampleEnv) 0).trace.take 7)
      [.printf "Error getting pod %q in namespace %q: %v\n"
        [.str "kube-apiserver-docker-for-desktop", .str "kube-system", .str "pods is forbidden"]]
      (.getPod "kube-system" "kube-apiserver-docker-for-desktop" (.error forbiddenErr))
      forbiddenErr rfl rfl rfl).2 rfl |>.2.1 (by decide) ⟨"Forbidden", "pods is forbidden", []⟩
        rfl⟩,
   ⟨rfl,
    ((client_errors_handled sampleJoin sampleEnv sampleClientset).1 Nat
      (podFailures (some notFoundErr) none) 0
      ((run (podFailures (some notFoundErr) none) (main sampleJoin sampleEnv) 0).trace.take 3)
      [] (.listPods "" (.error notFoundErr)) notFoundErr rfl rfl rfl).1 rfl⟩⟩

/-- C1 (as stated) fails, in each of its parts.  In the first run of `main`
the single-pod Get returns an API status error that is not of the not-found
kind: the program prints a message and returns, it does not abort.  In the
second the List of pods returns a not-found error: the process panics, no
message is printed.  In the run of `deployTest` the first Update fails with a
conflict, which is not a not-found error: the helper retries and the function
returns.  In `startWatch` a Watch call that returns a watcher together with an
error has its error ignored.  So it is not the case that every error of a
client call that is not a not-found error ends the first run in a panic. -/
theorem client_errors_handled_counterexample :
    ((run (podFailures none (some forbiddenErr)) (main sampleJoin sampleEnv) 0).trace.filter
          Event.isClientCall =
        [.buildConfigFromFlags "" "/home/dev/.kube/config" (.ok ⟨"/home/dev/.kube/config"⟩),
         .newForConfig ⟨"/home/dev/.kube/config"⟩ (.ok sampleClientset),
         .listPods "" (.ok samplePods),
         .getPod "kube-system" "kube-apiserver-docker-for-desktop" (.error forbiddenErr)] ∧
      IsNotFound (some forbiddenErr) = false ∧
      (run (podFailures none (some forbiddenErr)) (main sampleJoin sampleEnv) 0).trace.getLast? =
        some (.printf "Error getting pod %q in namespace %q: %v\n"
          [.str "kube-apiserver-docker-for-desktop", .str "kube-system",
           .str "pods is forbidden"]) ∧
      (run (podFailures none (some forbiddenErr)) (main sampleJoin sampleEnv) 0).outcome =
        .returned ()) ∧
    (IsNotFound (some notFoundErr) = true ∧
      (run (podFailures (some notFoundErr) none) (main sampleJoin sampleEnv) 0).trace.getLast? =
        some (.listPods "" (.error notFoundErr)) ∧
      (run (podFailures (some notFoundErr) none) (main sampleJoin sampleEnv) 0).outcome =
        .panicked (.errorText notFoundErr)) ∧
    (IsNotFound (some conflictErr) = false ∧
      ((run (conflictsFirst 1) (deployTest sampleClientset) 0).trace.filter Event.isUpdate).map
          Event.failure = [some conflictErr, none] ∧
      (run (conflictsFirst 1) (deployTest sampleClientset) 0).outcome = .returned ()) ∧
    (watchGoroutine (some ⟨[⟨"ADDED", some "demo-deployment"⟩], false⟩, some networkErr) 2 =
      ⟨[[.str "ADDED", .object (some "demo-deployment")]], .waiting, some ⟨[], false⟩⟩) ∧
    ¬ (∀ (pre post : List Event) (ev : Event) (e : GoError),
        (run (podFailures none (some forbiddenErr)) (main sampleJoin sampleEnv) 0).trace =
          pre ++ ev :: post →
        ev.isClientCall = true → ev.failure = some e → IsNotFound (some e) = false →
        ∃ v, (run (podFailures none (some forbiddenErr)) (main sampleJoin sampleEnv) 0).outcome =
          .panicked v) := by
  refine ⟨⟨rfl, by decide, rfl, rfl⟩, ⟨by decide, rfl, rfl⟩, ⟨by decide, rfl, rfl⟩, rfl, ?_⟩
  intro hall
  obtain ⟨v, hv⟩ := hall
    ((run (podFailures none (some forbiddenErr)) (main sampleJoin sampleEnv) 0).trace.take 7)
    [.printf "Error getting pod %q in namespace %q: %v\n"
      [.str "kube-apiserver-docker-for-desktop", .str "kube-system", .str "pods is forbidden"]]
    (.getPod "kube-system" "kube-apiserver-docker-for-desktop" (.error forbiddenErr))
    forbiddenErr rfl rfl rfl (by decide)
  have hret : (run (podFailures none (some forbiddenErr)) (main sampleJoin sampleEnv) 0).outcome =
      .returned () := rfl
  rw [hret] at hv
  cases hv

/-- Every execution of `svcTest` in which no call fails and no fetched
Service is without ports. -/
theorem svcTest_success_all (cs : Clientset) :
    (svcTest cs).all (fun t o =>
      (∀ ev ∈ t, ev.failure = none) →
      (∀ ns name svc, Event.getService ns name (.ok svc) ∈ t → svc.Spec.Ports ≠ []) →
      ∃ data1 deployment data2 service fetched p ps r1 r2 r3,
        Event.readFile "demo-deploy.json" (.ok data1) ∈ t ∧
        Event.unmarshalExtDeployment data1 (.ok deployment) ∈ t ∧
        Event.readFile "demo-service.json" (.ok data2) ∈ t ∧
        Event.unmarshalService data2 (.ok service) ∈ t ∧
        Event.getService NamespaceDefault service.ObjectMeta.Name (.ok fetched) ∈ t ∧
        fetched.Spec.Ports = p :: ps ∧
        t.filter Event.isMutating =
          [.createExtDeployment NamespaceDefault deployment (.ok r1),
           .createService NamespaceDefault service (.ok r2),
           .updateService NamespaceDefault
             { fetched with Spec := { fetched.Spec with
               Ports := { p with NodePort := 30000 } :: ps } } (.ok r3),
           .deleteService NamespaceDefault service.ObjectMeta.Name
             ⟨some DeletePropagationForeground⟩ none,
           .deleteExtDeployment NamespaceDefault deployment.ObjectMeta.Name
             ⟨some DeletePropagationForeground⟩ none] ∧
        o = .returned ()) := by
  simp only [svcTest, bind_eq, pure_eq, println, printf, call, prompt, retry_unroll,
    svcTest.update, Prog.bind_assoc, Prog.bind_step, Prog.bind_done, Prog.all, Event.of]
  intro data1
  cases data1 with
  | error err =>
    simp only [panic, Prog.bind_panic, Prog.all]
    intro hok
    simp [Event.failure] at hok
  | ok data1 =>
  simp only [Prog.bind_step, Prog.bind_done, Prog.all, Event.of]
  intro decoded1
  cases decoded1 with
  | error err =>
    simp only [panic, Prog.bind_panic, Prog.all]
    intro hok
    simp [Event.failure] at hok
  | ok deployment =>
  simp only [Prog.bind_step, Prog.bind_done, Prog.all, Event.of]
  intro _
  intro created1
  cases created1 with
  | error err =>
    simp only [panic, Prog.bind_panic, Prog.all]
    intro hok
    simp [Event.failure] at hok
  | ok r1 =>
  simp only [Prog.bind_step, Prog.bind_done, Prog.all, Event.of]
  intro _ _
  intro scan1
  cases scan1 with
  | some err =>
    simp only [panic, Prog.bind_panic, Prog.all]
    intro hok
    simp [Event.failure] at hok
  | none =>
  simp only [Prog.bind_step, Prog.bind_done, Prog.all, Event.of]
  intro _
  intro data2
  cases data2 with
  | error err =>
    simp only [panic, Prog.bind_panic, Prog.all]
    intro hok
    simp [Event.failure] at hok
  | ok data2 =>
  simp only [Prog.bind_step, Prog.bind_done, Prog.all, Event.of]
  intro decoded2
  cases decoded2 with
  | error err =>
    simp only [panic, Prog.bind_panic, Prog.all]
    intro hok
    simp [Event.failure] at hok
  | ok service =>
  simp only [Prog.bind_step, Prog.bind_done, Prog.all, Event.of]
  intro _
  intro created2
  cases created2 with
  | error err =>
    simp only [panic, Prog.bind_panic, Prog.all]
    intro hok
    simp [Event.failure] at hok
  | ok r2 =>
  simp only [Prog.bind_step, Prog.bind_done, Prog.all, Event.of]
  intro _ _
  intro scan2
  cases scan2 with
  | some err =>
    simp only [panic, Prog.bind_panic, Prog.all]
    intro hok
    simp [Event.failure] at hok
  | none =>
  simp only [Prog.bind_step, Prog.bind_done, Prog.all, Event.of]
  intro _ _
  intro got
  cases got with
  | error err =>
    simp only [panic, Prog.bind_panic, Prog.all]
    intro hok
    simp [Event.failure] at hok
  | ok fetched =>
  simp only [Prog.bind_step, Prog.bind_done, Prog.all, Event.of]
  cases hp : fetched.Spec.Ports with
  | nil =>
    simp only [panic, Prog.bind_panic, Prog.all]
    intro _ hports
    exact absurd hp (hports NamespaceDefault service.ObjectMeta.Name fetched (by simp))
  | cons p ps =>
  simp only [Prog.bind_step, Prog.bind_done, Prog.all, Event.of]
  intro updated
  cases updated with
  | error e =>
    refine Prog.all_of_forall _ (fun t o hok => ?_)
    simp [Event.failure] at hok
  | ok r3 =>
  simp only [errOf_ok, Prog.bind_step, Prog.bind_done, Prog.all, Event.of]
  intro _ _
  intro scan3
  cases scan3 with
  | some err =>
    simp only [panic, Prog.bind_panic, Prog.all]
    intro hok
    simp [Event.failure] at hok
  | none =>
  simp only [Prog.bind_step, Prog.bind_done, Prog.all, Event.of]
  intro _ _
  intro deleted1
  cases deleted1 with
  | some err =>
    simp only [panic, Prog.bind_panic, Prog.all]
    intro hok
    simp [Event.failure] at hok
  | none =>
  simp only [Prog.bind_step, Prog.bind_done, Prog.all, Event.of]
  intro _ _
  intro scan4
  cases scan4 with
  | some err =>
    simp only [panic, Prog.bind_panic, Prog.all]
    intro hok
    simp [Event.failure] at hok
  | none =>
  simp only [Prog.bind_step, Prog.bind_done, Prog.all, Event.of]
  intro _ _
  intro deleted2
  cases deleted2 with
  | some err =>
    simp only [panic, Prog.bind_panic, Prog.all]
    intro hok
    simp [Event.failure] at hok
  | none =>
  simp only [Prog.bind_step, Prog.bind_done, Prog.all, Event.of]
  intro _ _ _
  refine ⟨data1, deployment, data2, service, fetched, p, ps, r1, r2, r3, ?_⟩
  simp [Event.isMutating, hp]

/-- C4 (as amended): in every run of `svcTest` in which every file read,
decode, read of standard input and client call succeeds, and in which the
Service fetched for the update has at least one port, the mutating client
calls are exactly these five, in this order: the create of the Deployment
decoded from `demo-deploy.json`, the create of the Service decoded from
`demo-service.json`, the Update of the fetched Service (node port of its first
port set to 30000), the delete of the Service and the delete of the
Deployment, each delete under the name found in the manifest and with the
foreground propagation policy; the function then returns. -/
theorem svcTest_success_calls (cs : Clientset) {σ : Type} (h : (r : Req) → σ → Resp r × σ)
    (s : σ) (hok : ∀ ev ∈ (run h (svcTest cs) s).trace, ev.failure = none)
    (hports : ∀ ns name svc,
      Event.getService ns name (.ok svc) ∈ (run h (svcTest cs) s).trace →
        svc.Spec.Ports ≠ []) :
    ∃ data1 deployment data2 service fetched p ps r1 r2 r3,
      Event.readFile "demo-deploy.json" (.ok data1) ∈ (run h (svcTest cs) s).trace ∧
      Event.unmarshalExtDeployment data1 (.ok deployment) ∈ (run h (svcTest cs) s).trace ∧
      Event.readFile "demo-service.json" (.ok data2) ∈ (run h (svcTest cs) s).trace ∧
      Event.unmarshalService data2 (.ok service) ∈ (run h (svcTest cs) s).trace ∧
      Event.getService NamespaceDefault service.ObjectMeta.Name (.ok fetched) ∈
        (run h (svcTest cs) s).trace ∧
      fetched.Spec.Ports = p :: ps ∧
      (run h (svcTest cs) s).trace.filter Event.isMutating =
        [.createExtDeployment NamespaceDefault deployment (.ok r1),
         .createService NamespaceDefault service (.ok r2),
         .updateService NamespaceDefault
           { fetched with Spec := { fetched.Spec with
             Ports := { p with NodePort := 30000 } :: ps } } (.ok r3),
         .deleteService NamespaceDefault service.ObjectMeta.Name
           ⟨some DeletePropagationForeground⟩ none,
         .deleteExtDeployment NamespaceDefault deployment.ObjectMeta.Name
           ⟨some DeletePropagationForeground⟩ none] ∧
      (run h (svcTest cs) s).outcome = .returned () := by
  have hall := run_all h (svcTest cs) _ (svcTest_success_all cs) s
  exact hall hok hports

theorem svcTest_success_calls_witness :
    (∀ ev ∈ (run healthyHandler (svcTest sampleClientset) 0).trace, ev.failure = none) ∧
    (∀ ns name svc,
      Event.getService ns name (.ok svc) ∈ (run healthyHandler (svcTest sampleClientset) 0).trace →
        svc.Spec.Ports ≠ []) ∧
    ∃ data1 deployment data2 service fetched p ps r1 r2 r3,
      Event.readFile "demo-deploy.json" (.ok data1) ∈
        (run healthyHandler (svcTest sampleClientset) 0).trace ∧
      Event.unmarshalExtDeployment data1 (.ok deployment) ∈
        (run healthyHandler (svcTest sampleClientset) 0).trace ∧
      Event.readFile "demo-service.json" (.ok data2) ∈
        (run healthyHandler (svcTest sampleClientset) 0).trace ∧
      Event.unmarshalService data2 (.ok service) ∈
        (run healthyHandler (svcTest sampleClientset) 0).trace ∧
      Event.getService NamespaceDefault service.ObjectMeta.Name (.ok fetched) ∈
        (run healthyHandler (svcTest sampleClientset) 0).trace ∧
      fetched.Spec.Ports = p :: ps ∧
      (run healthyHandler (svcTest sampleClientset) 0).trace.filter Event.isMutating =
        [.createExtDeployment NamespaceDefault deployment (.ok r1),
         .createService NamespaceDefault service (.ok r2),
         .updateService NamespaceDefault
           { fetched with Spec := { fetched.Spec with
             Ports := { p with NodePort := 30000 } :: ps } } (.ok r3),
         .deleteService NamespaceDefault service.ObjectMeta.Name
           ⟨some DeletePropagationForeground⟩ none,
         .deleteExtDeployment NamespaceDefault deployment.ObjectMeta.Name
           ⟨some DeletePropagationForeground⟩ none] ∧
      (run healthyHandler (svcTest sampleClientset) 0).outcome = .returned () := by
  have hok : ∀ ev ∈ (run healthyHandler (svcTest sampleClientset) 0).trace,
      ev.failure = none := by
    intro ev hev
    have hall : ((run healthyHandler (svcTest sampleClientset) 0).trace.all
        (fun ev => ev.failure.isNone)) = true := rfl
    exact Option.isNone_iff_eq_none.1 (List.all_eq_true.1 hall ev hev)
  have hports : ∀ ns name svc,
      Event.getService ns name (.ok svc) ∈ (run healthyHandler (svcTest sampleClientset) 0).trace →
        svc.Spec.Ports ≠ [] := by
    intro ns name svc hmem
    have hfil : (run healthyHandler (svcTest sampleClientset) 0).trace.filter Event.isGet =
        [.getService NamespaceDefault "demo-service" (.ok sampleService)] := rfl
    have hin : Event.getService ns name (.ok svc) ∈
        (run healthyHandler (svcTest sampleClientset) 0).trace.filter Event.isGet :=
      List.mem_filter.2 ⟨hmem, rfl⟩
    rw [hfil] at hin
    simp only [List.mem_singleton, Event.getService.injEq, Except.ok.injEq] at hin
    rw [hin.2.2]
    decide
  exact ⟨hok, hports, svcTest_success_calls sampleClientset healthyHandler 0 hok hports⟩

/-- C4 (as stated) fails.  In the first run of `svcTest` every file read,
decode and client call succeeds, but the fetched Service has no port: the run
makes only the two creates and then panics on the index, with no update and
no delete.  In the second run every call succeeds except the reads of
standard input made by `prompt`: the run panics after the first create.  So
it is not the case that the mutating calls of the first run, in which no call
fails, are five. -/
theorem svcTest_success_calls_counterexample :
    (((run (getServiceGives portlessService) (svcTest sampleClientset) 0).trace.all
          (fun ev => ev.failure.isNone)) = true ∧
      (run (getServiceGives portlessService) (svcTest sampleClientset) 0).trace.filter
          Event.isMutating =
        [.createExtDeployment NamespaceDefault sampleExtDeployment (.ok sampleExtDeployment),
         .createService NamespaceDefault sampleService (.ok sampleService)] ∧
      (run (getServiceGives portlessService) (svcTest sampleClientset) 0).outcome =
        .panicked (.indexOutOfRange 0 0)) ∧
    ((run stdinFails (svcTest sampleClientset) 0).trace.filter Event.failed =
        [.scanStdin (some stdinErr)] ∧
      (run stdinFails (svcTest sampleClientset) 0).trace.filter Event.isMutating =
        [.createExtDeployment NamespaceDefault sampleExtDeployment (.ok sampleExtDeployment)] ∧
      (run stdinFails (svcTest sampleClientset) 0).outcome = .panicked (.error stdinErr)) ∧
    ¬ ((∀ ev ∈ (run (getServiceGives portlessService) (svcTest sampleClientset) 0).trace,
          ev.failure = none) →
        ∃ a b c d e,
          (run (getServiceGives portlessService) (svcTest sampleClientset) 0).trace.filter
            Event.isMutating = [a, b, c, d, e]) := by
  refine ⟨⟨rfl, rfl, rfl⟩, ⟨rfl, rfl, rfl⟩, ?_⟩
  intro hclaim
  have hall : ((run (getServiceGives portlessService) (svcTest sampleClientset) 0).trace.all
      (fun ev => ev.failure.isNone)) = true := rfl
  obtain ⟨a, b, c, d, e, hfive⟩ := hclaim
    (fun ev hev => Option.isNone_iff_eq_none.1 (List.all_eq_true.1 hall ev hev))
  have htwo : (run (getServiceGives portlessService) (svcTest sampleClientset) 0).trace.filter
      Event.isMutating =
      [.createExtDeployment NamespaceDefault sampleExtDeployment (.ok sampleExtDeployment),
       .createService NamespaceDefault sampleService (.ok sampleService)] := rfl
  rw [htwo] at hfive
  simp at hfive

/-! ## `startWatch` -/

/-- The loop on an open channel: the events delivered are printed in order,
after the lines already printed, and the loop then blocks in the receive. -/
theorem watchLoop_open (events : List WatchEvent) (printed : List (List Value)) (fuel : Nat)
    (hfuel : events.length < fuel) :
    watchLoop fuel ⟨events, false⟩ printed =
      ⟨printed ++ events.map (fun e => [.str e.EventType, .object e.Object]), .waiting,
        some ⟨[], false⟩⟩ := by
  induction events generalizing printed fuel with
  | nil =>
    cases fuel with
    | zero => cases hfuel
    | succ fuel => simp [watchLoop, Watcher.receive]
  | cons e rest ih =>
    cases fuel with
    | zero => cases hfuel
    | succ fuel =>
      simp only [watchLoop, Watcher.receive]
      rw [ih _ fuel (by simpa using hfuel)]
      simp

/-- The loop never ends by itself: whatever the channel holds and however
long it is observed, the goroutine is running or blocked in the receive. -/
theorem watchLoop_status (fuel : Nat) (w : Watcher) (printed : List (List Value)) :
    (watchLoop fuel w printed).status = .running ∨
      (watchLoop fuel w printed).status = .waiting := by
  induction fuel generalizing w printed with
  | zero => exact Or.inl rfl
  | succ fuel ih =>
    simp only [watchLoop]
    cases hr : w.receive with
    | none => exact Or.inr rfl
    | some p => exact ih _ _

/-- C5 (the failing input): when a Watch call of `startWatch` returns no
watcher (with or without an error), the goroutine ends at once in a nil
dereference, having printed nothing, however long it is observed.  This holds
for each of the two goroutines. -/
theorem startWatch_nil_watcher (cs : Clientset) (err : Option GoError)
    (other : Option Watcher × Option GoError) (fuel : Nat) :
    (startWatch cs (none, err) other fuel).1 = ⟨[], .panicked .nilDereference, none⟩ ∧
    (startWatch cs other (none, err) fuel).2 = ⟨[], .panicked .nilDereference, none⟩ :=
  ⟨rfl, rfl⟩

end K8sDemo
